import Mathlib

/-!
Verification development for the ServiceBus namespace-administration client
(sdk/servicebus/azure-servicebus/azure/servicebus/management/_management_client.py).

The Python client is shallowly embedded: every public operation is translated
into a pure Lean function over explicit data.  Remote calls are represented by
the request value the operation would hand to the transport, together with a
trace of externally visible events (token requests, header injections, HTTP
requests), so that ordering and absence of network traffic can be stated.
Helper modules of the repository that are not part of the sampled sources
(the `_utils` validators and normalizer, the `_models` conversion helpers)
are modelled from the specification; each such definition carries a doc
comment starting with "Modelled from the spec:".
-/

namespace ServiceBusAdmin

/-- Duration inputs: the client accepts either a native duration value or a
pre-formatted ISO-8601 interval string (the string is passed through
verbatim when serialized). -/
inductive TimeSpan where
  | native (seconds : Int)
  | literal (s : String)
deriving DecidableEq

/-- Named access-key pair with granted rights, embedded in queue and topic
configuration (abbreviated to the fields the administration claims touch). -/
structure AuthorizationRule where
  key_name : Option String := none
  rights : List String := []
deriving DecidableEq

/-- Variant tag of the polymorphic rule filter model. -/
inductive RuleFilterKind where
  | trueFilter
  | correlationFilter
  | sqlFilter
deriving DecidableEq

/-- A rule-filter object.  The objId field models Python object identity:
two filter values denote the same runtime object exactly when their objId
agrees.  It lets sharing of the mutable default argument of create_rule be
stated. -/
structure RuleFilterObj where
  objId : Nat
  kind : RuleFilterKind
deriving DecidableEq

/-- Optional SQL action attached to a rule. -/
structure SqlRuleAction where
  sql_expression : String
  requires_preprocessing : Option Bool := none
deriving DecidableEq

/-- The azure.core MatchConditions enumeration (the members the management
client can put on a request). -/
inductive MatchCondition where
  | unconditionally
  | ifPresent
deriving DecidableEq

/-- Typed errors surfaced by the embedded operations.  resourceNotFound
mirrors azure.core.exceptions.ResourceNotFoundError, validationError the
local name validation, valueError the explicit ValueError raise in
delete_queue, tokenError a failure of credential.get_token, and
unboundLocalError the Python UnboundLocalError raised when a local variable
is read before assignment. -/
inductive AdminError where
  | resourceNotFound (msg : String)
  | validationError (msg : String)
  | valueError (msg : String)
  | tokenError (msg : String)
  | unboundLocalError (var : String)
deriving DecidableEq

/-- Externally visible events of one operation, in program order:
a token acquisition against the credential, the injection of a
supplementary header, and the primary HTTP requests. -/
inductive Event where
  | tokenRequest (scope : String)
  | headerSet (header : String) (token : String)
  | getRequest (path : String)
  | putRequest (path : String)
  | deleteRequest (path : String)
deriving DecidableEq

/-- An event is part of the supplementary token acquisition (it is not a
primary HTTP request on the entity). -/
def Event.isTokenEvent : Event → Bool
  | .tokenRequest _ => true
  | .headerSet _ _ => true
  | _ => false

/-- Request headers, as the kwargs headers dictionary. -/
abbrev Headers := List (String × String)

/-- Python dictionary assignment: replace the value under an existing key,
otherwise append the binding. -/
def dictSet (m : Headers) (k v : String) : Headers :=
  if (m.find? (fun p => p.1 = k)).isSome then
    m.map (fun p => if p.1 = k then (k, v) else p)
  else
    m ++ [(k, v)]

/-- Python truthiness of an optional string (None and the empty string are
falsy). -/
def pyTruthyStr : Option String → Bool
  | some s => !s.isEmpty
  | none => false

/-- Python truthiness of an optional numeric value (None and zero are
falsy). -/
def pyTruthyNat : Option Nat → Bool
  | some n => n != 0
  | none => false

/-- The fixed management-audience token scope used for every non-SAS,
non-shared-key credential (JWT_TOKEN_SCOPE in the constants module). -/
def JWT_TOKEN_SCOPE : String := "https://servicebus.azure.net//.default"

/-- Header carrying the supplementary token for the forward destination. -/
def SUPPLEMENTARY_AUTHORIZATION_HEADER : String := "ServiceBusSupplementaryAuthorization"

/-- Header carrying the supplementary token for the dead-letter forward
destination. -/
def DEAD_LETTER_SUPPLEMENTARY_AUTHORIZATION_HEADER : String := "ServiceBusDlqSupplementaryAuthorization"

/-- Characters admitted by the broker naming grammar as modelled here:
alphanumerics plus hyphen, period, underscore and path separator. -/
def validEntityNameChar (c : Char) : Bool :=
  c.isAlphanum || c = '-' || c = '.' || c = '_' || c = '/'

/-- Modelled from the spec: the broker naming grammar used by the name
validators of the `_utils` module, which is absent from the sampled
sources.  The spec requires entity names to satisfy the naming grammar and
to be non-empty. -/
def validEntityName (s : String) : Bool :=
  !s.isEmpty && s.toList.all validEntityNameChar

/-- Modelled from the spec: the local name validation performed before any
network call (the `_validate_entity_name_type` helper of `_utils` is not in
the sampled sources).  An invalid name raises a Validation-class error. -/
def validateEntityName (s : String) : Except AdminError Unit :=
  if validEntityName s then .ok () else .error (.validationError s)

/-- Detects an absolute resource path: one that carries a URI scheme
separator. -/
def hasSchemeSepList : List Char → Bool
  | ':' :: '/' :: '/' :: _ => true
  | _ :: t => hasSchemeSepList t
  | [] => false

/-- A forward-to value is already an absolute resource path when it carries
a URI scheme. -/
def isAbsoluteResourcePath (p : String) : Bool :=
  hasSchemeSepList p.toList

/-- Modelled from the spec: `_normalize_entity_path_to_full_path_if_needed`
of the `_utils` module (absent from the sampled sources).  A bare entity
name is expanded to an absolute resource path rooted at the namespace; an
already-absolute path, or an empty (falsy) value, is passed through
unchanged. -/
def normalizeEntityPath (fqns : String) : Option String → Option String
  | none => none
  | some p =>
      if p.isEmpty then some p
      else if isAbsoluteResourcePath p then some p
      else some ("sb://" ++ fqns ++ "/" ++ p)

/-- Public queue configuration (QueueProperties of the `_models` module).
The field set mirrors the keyword surface of create_queue; version_tag is
the server-assigned opaque version tag the spec ascribes to entities,
populated only after a round trip and never sent on create or update. -/
structure QueueProperties where
  name : String
  authorization_rules : Option (List AuthorizationRule) := none
  auto_delete_on_idle : Option TimeSpan := none
  dead_lettering_on_message_expiration : Option Bool := none
  default_message_time_to_live : Option TimeSpan := none
  duplicate_detection_history_time_window : Option TimeSpan := none
  availability_status : Option String := none
  enable_batched_operations : Option Bool := none
  enable_express : Option Bool := none
  enable_partitioning : Option Bool := none
  lock_duration : Option TimeSpan := none
  max_delivery_count : Option Int := none
  max_size_in_megabytes : Option Int := none
  requires_duplicate_detection : Option Bool := none
  requires_session : Option Bool := none
  status : Option String := none
  forward_to : Option String := none
  forward_dead_lettered_messages_to : Option String := none
  user_metadata : Option String := none
  max_message_size_in_kilobytes : Option Int := none
  version_tag : Option String := none
deriving DecidableEq

/-- Public topic configuration (TopicProperties of the `_models` module). -/
structure TopicProperties where
  name : String
  default_message_time_to_live : Option TimeSpan := none
  max_size_in_megabytes : Option Int := none
  requires_duplicate_detection : Option Bool := none
  duplicate_detection_history_time_window : Option TimeSpan := none
  enable_batched_operations : Option Bool := none
  size_in_bytes : Option Int := none
  filtering_messages_before_publishing : Option Bool := none
  authorization_rules : Option (List AuthorizationRule) := none
  support_ordering : Option Bool := none
  auto_delete_on_idle : Option TimeSpan := none
  enable_partitioning : Option Bool := none
  availability_status : Option String := none
  enable_express : Option Bool := none
  status : Option String := none
  user_metadata : Option String := none
  max_message_size_in_kilobytes : Option Int := none
  version_tag : Option String := none
deriving DecidableEq

/-- Public subscription configuration (SubscriptionProperties of the
`_models` module). -/
structure SubscriptionProperties where
  name : String
  lock_duration : Option TimeSpan := none
  requires_session : Option Bool := none
  default_message_time_to_live : Option TimeSpan := none
  dead_lettering_on_message_expiration : Option Bool := none
  dead_lettering_on_filter_evaluation_exceptions : Option Bool := none
  max_delivery_count : Option Int := none
  enable_batched_operations : Option Bool := none
  status : Option String := none
  forward_to : Option String := none
  user_metadata : Option String := none
  forward_dead_lettered_messages_to : Option String := none
  auto_delete_on_idle : Option TimeSpan := none
  availability_status : Option String := none
  version_tag : Option String := none
deriving DecidableEq

/-- Public rule configuration (RuleProperties of the `_models` module). -/
structure RuleProperties where
  name : String
  filter : Option RuleFilterObj := none
  action : Option SqlRuleAction := none
  created_at_utc : Option String := none
deriving DecidableEq

/-- Wire-schema queue description (the generated QueueDescription).
Durations are fixed-format ISO-8601 interval strings; the trailing fields
are server-assigned runtime values, present only in decoded responses. -/
structure InternalQueueDescription where
  authorization_rules : Option (List AuthorizationRule) := none
  auto_delete_on_idle : Option String := none
  dead_lettering_on_message_expiration : Option Bool := none
  default_message_time_to_live : Option String := none
  duplicate_detection_history_time_window : Option String := none
  availability_status : Option String := none
  enable_batched_operations : Option Bool := none
  enable_express : Option Bool := none
  enable_partitioning : Option Bool := none
  lock_duration : Option String := none
  max_delivery_count : Option Int := none
  max_size_in_megabytes : Option Int := none
  requires_duplicate_detection : Option Bool := none
  requires_session : Option Bool := none
  status : Option String := none
  forward_to : Option String := none
  forward_dead_lettered_messages_to : Option String := none
  user_metadata : Option String := none
  max_message_size_in_kilobytes : Option Int := none
  message_count : Option Int := none
  size_in_bytes : Option Int := none
  created_at_utc : Option String := none
  updated_at_utc : Option String := none
  accessed_at_utc : Option String := none
deriving DecidableEq

/-- Wire-schema topic description (the generated TopicDescription). -/
structure InternalTopicDescription where
  default_message_time_to_live : Option String := none
  max_size_in_megabytes : Option Int := none
  requires_duplicate_detection : Option Bool := none
  duplicate_detection_history_time_window : Option String := none
  enable_batched_operations : Option Bool := none
  size_in_bytes : Option Int := none
  filtering_messages_before_publishing : Option Bool := none
  authorization_rules : Option (List AuthorizationRule) := none
  support_ordering : Option Bool := none
  auto_delete_on_idle : Option String := none
  enable_partitioning : Option Bool := none
  availability_status : Option String := none
  enable_express : Option Bool := none
  status : Option String := none
  user_metadata : Option String := none
  max_message_size_in_kilobytes : Option Int := none
  created_at_utc : Option String := none
  updated_at_utc : Option String := none
  accessed_at_utc : Option String := none
deriving DecidableEq

/-- Wire-schema subscription description (the generated
SubscriptionDescription). -/
structure InternalSubscriptionDescription where
  lock_duration : Option String := none
  requires_session : Option Bool := none
  default_message_time_to_live : Option String := none
  dead_lettering_on_message_expiration : Option Bool := none
  dead_lettering_on_filter_evaluation_exceptions : Option Bool := none
  max_delivery_count : Option Int := none
  enable_batched_operations : Option Bool := none
  status : Option String := none
  forward_to : Option String := none
  user_metadata : Option String := none
  forward_dead_lettered_messages_to : Option String := none
  auto_delete_on_idle : Option String := none
  availability_status : Option String := none
  message_count : Option Int := none
  created_at_utc : Option String := none
  updated_at_utc : Option String := none
  accessed_at_utc : Option String := none
deriving DecidableEq

/-- Wire-schema rule description (the generated RuleDescription). -/
structure InternalRuleDescription where
  filter : Option RuleFilterObj := none
  action : Option SqlRuleAction := none
  created_at_utc : Option String := none
deriving DecidableEq

/-- Modelled from the spec: duration serialization of to_wire.  A native
duration is formatted as a fixed-format ISO-8601 interval string; a
pre-formatted string is passed through verbatim without reparsing. -/
def serializeTimeSpan : Option TimeSpan → Option String
  | none => none
  | some (.literal s) => some s
  | some (.native secs) => some ("PT" ++ toString secs ++ "S")

/-- Wire durations come back as ISO-8601 strings and are held verbatim in
the public model here. -/
def wireTimeSpan : Option String → Option TimeSpan
  | none => none
  | some s => some (.literal s)

/-- Modelled from the spec: QueueProperties._to_internal_entity (the
`_models` conversion helpers are not in the sampled sources).  to_wire
normalizes the forward-to fields to absolute paths rooted at the
namespace, serializes durations, and omits the server-assigned fields
(runtime values and the version tag) that create and update do not
accept. -/
def queueToInternal (fqns : String) (q : QueueProperties) : InternalQueueDescription :=
  { authorization_rules := q.authorization_rules
    auto_delete_on_idle := serializeTimeSpan q.auto_delete_on_idle
    dead_lettering_on_message_expiration := q.dead_lettering_on_message_expiration
    default_message_time_to_live := serializeTimeSpan q.default_message_time_to_live
    duplicate_detection_history_time_window := serializeTimeSpan q.duplicate_detection_history_time_window
    availability_status := q.availability_status
    enable_batched_operations := q.enable_batched_operations
    enable_express := q.enable_express
    enable_partitioning := q.enable_partitioning
    lock_duration := serializeTimeSpan q.lock_duration
    max_delivery_count := q.max_delivery_count
    max_size_in_megabytes := q.max_size_in_megabytes
    requires_duplicate_detection := q.requires_duplicate_detection
    requires_session := q.requires_session
    status := q.status
    forward_to := normalizeEntityPath fqns q.forward_to
    forward_dead_lettered_messages_to := normalizeEntityPath fqns q.forward_dead_lettered_messages_to
    user_metadata := q.user_metadata
    max_message_size_in_kilobytes := q.max_message_size_in_kilobytes }

/-- Modelled from the spec: QueueProperties._from_internal_entity.  from_wire
materializes the public model from a decoded wire description; runtime-only
values are not part of the configuration model. -/
def queueFromInternal (name : String) (d : InternalQueueDescription) : QueueProperties :=
  { name := name
    authorization_rules := d.authorization_rules
    auto_delete_on_idle := wireTimeSpan d.auto_delete_on_idle
    dead_lettering_on_message_expiration := d.dead_lettering_on_message_expiration
    default_message_time_to_live := wireTimeSpan d.default_message_time_to_live
    duplicate_detection_history_time_window := wireTimeSpan d.duplicate_detection_history_time_window
    availability_status := d.availability_status
    enable_batched_operations := d.enable_batched_operations
    enable_express := d.enable_express
    enable_partitioning := d.enable_partitioning
    lock_duration := wireTimeSpan d.lock_duration
    max_delivery_count := d.max_delivery_count
    max_size_in_megabytes := d.max_size_in_megabytes
    requires_duplicate_detection := d.requires_duplicate_detection
    requires_session := d.requires_session
    status := d.status
    forward_to := d.forward_to
    forward_dead_lettered_messages_to := d.forward_dead_lettered_messages_to
    user_metadata := d.user_metadata
    max_message_size_in_kilobytes := d.max_message_size_in_kilobytes }

/-- Modelled from the spec: TopicProperties._to_internal_entity. -/
def topicToInternal (t : TopicProperties) : InternalTopicDescription :=
  { default_message_time_to_live := serializeTimeSpan t.default_message_time_to_live
    max_size_in_megabytes := t.max_size_in_megabytes
    requires_duplicate_detection := t.requires_duplicate_detection
    duplicate_detection_history_time_window := serializeTimeSpan t.duplicate_detection_history_time_window
    enable_batched_operations := t.enable_batched_operations
    size_in_bytes := t.size_in_bytes
    filtering_messages_before_publishing := t.filtering_messages_before_publishing
    authorization_rules := t.authorization_rules
    support_ordering := t.support_ordering
    auto_delete_on_idle := serializeTimeSpan t.auto_delete_on_idle
    enable_partitioning := t.enable_partitioning
    availability_status := t.availability_status
    enable_express := t.enable_express
    status := t.status
    user_metadata := t.user_metadata
    max_message_size_in_kilobytes := t.max_message_size_in_kilobytes }

/-- Modelled from the spec: TopicProperties._from_internal_entity. -/
def topicFromInternal (name : String) (d : InternalTopicDescription) : TopicProperties :=
  { name := name
    default_message_time_to_live := wireTimeSpan d.default_message_time_to_live
    max_size_in_megabytes := d.max_size_in_megabytes
    requires_duplicate_detection := d.requires_duplicate_detection
    duplicate_detection_history_time_window := wireTimeSpan d.duplicate_detection_history_time_window
    enable_batched_operations := d.enable_batched_operations
    size_in_bytes := d.size_in_bytes
    filtering_messages_before_publishing := d.filtering_messages_before_publishing
    authorization_rules := d.authorization_rules
    support_ordering := d.support_ordering
    auto_delete_on_idle := wireTimeSpan d.auto_delete_on_idle
    enable_partitioning := d.enable_partitioning
    availability_status := d.availability_status
    enable_express := d.enable_express
    status := d.status
    user_metadata := d.user_metadata
    max_message_size_in_kilobytes := d.max_message_size_in_kilobytes }

/-- Modelled from the spec: SubscriptionProperties._to_internal_entity. -/
def subscriptionToInternal (fqns : String) (s : SubscriptionProperties) : InternalSubscriptionDescription :=
  { lock_duration := serializeTimeSpan s.lock_duration
    requires_session := s.requires_session
    default_message_time_to_live := serializeTimeSpan s.default_message_time_to_live
    dead_lettering_on_message_expiration := s.dead_lettering_on_message_expiration
    dead_lettering_on_filter_evaluation_exceptions := s.dead_lettering_on_filter_evaluation_exceptions
    max_delivery_count := s.max_delivery_count
    enable_batched_operations := s.enable_batched_operations
    status := s.status
    forward_to := normalizeEntityPath fqns s.forward_to
    user_metadata := s.user_metadata
    forward_dead_lettered_messages_to := normalizeEntityPath fqns s.forward_dead_lettered_messages_to
    auto_delete_on_idle := serializeTimeSpan s.auto_delete_on_idle
    availability_status := s.availability_status }

/-- Modelled from the spec: SubscriptionProperties._from_internal_entity. -/
def subscriptionFromInternal (name : String) (d : InternalSubscriptionDescription) : SubscriptionProperties :=
  { name := name
    lock_duration := wireTimeSpan d.lock_duration
    requires_session := d.requires_session
    default_message_time_to_live := wireTimeSpan d.default_message_time_to_live
    dead_lettering_on_message_expiration := d.dead_lettering_on_message_expiration
    dead_lettering_on_filter_evaluation_exceptions := d.dead_lettering_on_filter_evaluation_exceptions
    max_delivery_count := d.max_delivery_count
    enable_batched_operations := d.enable_batched_operations
    status := d.status
    forward_to := d.forward_to
    user_metadata := d.user_metadata
    forward_dead_lettered_messages_to := d.forward_dead_lettered_messages_to
    auto_delete_on_idle := wireTimeSpan d.auto_delete_on_idle
    availability_status := d.availability_status }

/-- Modelled from the spec: RuleProperties._to_internal_entity. -/
def ruleToInternal (r : RuleProperties) : InternalRuleDescription :=
  { filter := r.filter
    action := r.action }

/-- Modelled from the spec: RuleProperties._from_internal_entity. -/
def ruleFromInternal (name : String) (d : InternalRuleDescription) : RuleProperties :=
  { name := name
    filter := d.filter
    action := d.action
    created_at_utc := d.created_at_utc }

/-- Runtime information of a queue (QueueRuntimeProperties); populated
exclusively from service responses. -/
structure QueueRuntimeProperties where
  name : String
  message_count : Option Int := none
  size_in_bytes : Option Int := none
  created_at_utc : Option String := none
  updated_at_utc : Option String := none
  accessed_at_utc : Option String := none
deriving DecidableEq

/-- Modelled from the spec: QueueRuntimeProperties._from_internal_entity. -/
def queueRuntimeFromInternal (name : String) (d : InternalQueueDescription) : QueueRuntimeProperties :=
  { name := name
    message_count := d.message_count
    size_in_bytes := d.size_in_bytes
    created_at_utc := d.created_at_utc
    updated_at_utc := d.updated_at_utc
    accessed_at_utc := d.accessed_at_utc }

/-- Decoded Atom entry envelope for a queue (QueueDescriptionEntry): the
content element is absent when the entity does not exist inside an
otherwise-successful response. -/
structure QueueDescriptionEntry where
  title : Option String := none
  content : Option InternalQueueDescription := none
deriving DecidableEq

/-- Decoded Atom entry envelope for a topic (TopicDescriptionEntry). -/
structure TopicDescriptionEntry where
  title : Option String := none
  content : Option InternalTopicDescription := none
deriving DecidableEq

/-- Decoded Atom entry envelope for a subscription
(SubscriptionDescriptionEntry). -/
structure SubscriptionDescriptionEntry where
  title : Option String := none
  content : Option InternalSubscriptionDescription := none
deriving DecidableEq

/-- Decoded Atom entry envelope for a rule (RuleDescriptionEntry). -/
structure RuleDescriptionEntry where
  title : Option String := none
  content : Option InternalRuleDescription := none
deriving DecidableEq

/-- Embeds get_queue (lines 260-272): the decoded entry of the response is
turned into QueueProperties, and an entry without content raises
ResourceNotFoundError.  The transport fetch itself is external; the
function receives the decoded entry. -/
def getQueue (queue_name : String) (entry : QueueDescriptionEntry) : Except AdminError QueueProperties :=
  match entry.content with
  | none => .error (.resourceNotFound ("Queue \x27" ++ queue_name ++ "\x27 does not exist"))
  | some content => .ok (queueFromInternal queue_name content)

/-- Embeds get_queue_runtime_properties (lines 274-286). -/
def getQueueRuntimeProperties (queue_name : String) (entry : QueueDescriptionEntry) : Except AdminError QueueRuntimeProperties :=
  match entry.content with
  | none => .error (.resourceNotFound ("Queue " ++ queue_name ++ " does not exist"))
  | some content => .ok (queueRuntimeFromInternal queue_name content)

/-- Embeds get_topic (lines 503-515). -/
def getTopic (topic_name : String) (entry : TopicDescriptionEntry) : Except AdminError TopicProperties :=
  match entry.content with
  | none => .error (.resourceNotFound ("Topic \x27" ++ topic_name ++ "\x27 does not exist"))
  | some content => .ok (topicFromInternal topic_name content)

/-- Embeds get_subscription (lines 717-734). -/
def getSubscription (topic_name subscription_name : String) (entry : SubscriptionDescriptionEntry) : Except AdminError SubscriptionProperties :=
  match entry.content with
  | none =>
      .error (.resourceNotFound
        ("Subscription(\x27Topic: " ++ subscription_name ++ ", Subscription: " ++ topic_name ++ "\x27) does not exist"))
  | some content => .ok (subscriptionFromInternal subscription_name content)

/-- Embeds get_rule (lines 959-979).  The rule key-value workaround applied
to correlation filter properties after decoding is a transport-level detail
outside this model. -/
def getRule (topic_name subscription_name rule_name : String) (entry : RuleDescriptionEntry) : Except AdminError RuleProperties :=
  match entry.content with
  | none =>
      .error (.resourceNotFound
        ("Rule(\x27Topic: " ++ subscription_name ++ ", Subscription: " ++ topic_name ++ ", Rule " ++ rule_name ++ "\x27) does not exist"))
  | some content => .ok (ruleFromInternal rule_name content)

/-- Kind of the active credential: the two connection-string credential
classes are distinguished from every other token credential. -/
inductive CredentialKind where
  | sharedKey
  | sasToken
  | tokenCredential
deriving DecidableEq

/-- The kinds matched by isinstance(credential, (ServiceBusSASTokenCredential,
ServiceBusSharedKeyCredential)). -/
def CredentialKind.isSasOrSharedKey : CredentialKind → Bool
  | .sharedKey => true
  | .sasToken => true
  | .tokenCredential => false

/-- The active credential: its kind plus its get_token behavior, mapping a
scope to a token or to an acquisition failure. -/
structure Credential where
  kind : CredentialKind
  getToken : String → Except AdminError String

/-- The administration client state the embedded operations read. -/
structure AdminClient where
  fully_qualified_namespace : String
  credential : Credential

/-- Embeds _populate_header_within_kwargs (lines 214-223): for a non-SAS,
non-shared-key credential the scope is replaced by the fixed
management-audience scope; the token is acquired for that scope; a non-SAS,
non-shared-key token is given the Bearer marker; finally the header is set
in the kwargs headers dictionary.  The trace records the token request and
the header injection. -/
def populateHeaderWithinKwargs (cred : Credential) (uri header : String) (headers : Headers) :
    List Event × Except AdminError Headers :=
  let scope := if cred.kind.isSasOrSharedKey then uri else JWT_TOKEN_SCOPE
  match cred.getToken scope with
  | .error e => ([Event.tokenRequest scope], .error e)
  | .ok token =>
      let token := if cred.kind.isSasOrSharedKey then token else "Bearer " ++ token
      ([Event.tokenRequest scope, Event.headerSet header token], .ok (dictSet headers header token))

/-- Embeds _create_forward_to_header_tokens (lines 207-231): one
supplementary header per truthy forward target, the forward destination
first, then the dead-letter forward destination. -/
def createForwardToHeaderTokens (cred : Credential) (fwd fdl : Option String) (headers0 : Headers) :
    List Event × Except AdminError Headers :=
  let step1 :=
    if pyTruthyStr fwd then
      populateHeaderWithinKwargs cred (fwd.getD "") SUPPLEMENTARY_AUTHORIZATION_HEADER headers0
    else ([], .ok headers0)
  match step1 with
  | (evs1, .error e) => (evs1, .error e)
  | (evs1, .ok h1) =>
      let step2 :=
        if pyTruthyStr fdl then
          populateHeaderWithinKwargs cred (fdl.getD "") DEAD_LETTER_SUPPLEMENTARY_AUTHORIZATION_HEADER h1
        else ([], .ok h1)
      (evs1 ++ step2.1, step2.2)

/-- The queue PUT request handed to the transport: the path, the serialized
wire description, the optimistic-concurrency condition, and the
supplementary headers. -/
structure QueuePutRequest where
  name : String
  body : InternalQueueDescription
  matchCondition : MatchCondition
  headers : Headers
deriving DecidableEq

/-- The topic PUT request handed to the transport. -/
structure TopicPutRequest where
  name : String
  body : InternalTopicDescription
  matchCondition : MatchCondition
deriving DecidableEq

/-- The subscription PUT request handed to the transport. -/
structure SubscriptionPutRequest where
  topic_name : String
  name : String
  body : InternalSubscriptionDescription
  matchCondition : MatchCondition
  headers : Headers
deriving DecidableEq

/-- The rule PUT request handed to the transport. -/
structure RulePutRequest where
  topic_name : String
  subscription_name : String
  name : String
  body : InternalRuleDescription
  matchCondition : MatchCondition
deriving DecidableEq

/-- Override of one optional property: a present keyword argument replaces
the stored value. -/
def ovr {τ : Type} (o : Option τ) (cur : Option τ) : Option τ :=
  match o with
  | some v => some v
  | none => cur

/-- Property overrides a caller can pass to update_queue as keyword
arguments; a present field replaces the one of the supplied instance.  The
name is the entity identity and the version tag is server-assigned, so
neither is a property keyword. -/
structure QueueOverrides where
  authorization_rules : Option (List AuthorizationRule) := none
  auto_delete_on_idle : Option TimeSpan := none
  dead_lettering_on_message_expiration : Option Bool := none
  default_message_time_to_live : Option TimeSpan := none
  duplicate_detection_history_time_window : Option TimeSpan := none
  enable_batched_operations : Option Bool := none
  enable_express : Option Bool := none
  enable_partitioning : Option Bool := none
  lock_duration : Option TimeSpan := none
  max_delivery_count : Option Int := none
  max_size_in_megabytes : Option Int := none
  requires_duplicate_detection : Option Bool := none
  requires_session : Option Bool := none
  status : Option String := none
  forward_to : Option String := none
  forward_dead_lettered_messages_to : Option String := none
  user_metadata : Option String := none
  max_message_size_in_kilobytes : Option Int := none
deriving DecidableEq

/-- Applies update_queue keyword overrides to the (copied) instance, as
QueueProperties._to_internal_entity does with kwargs. -/
def applyQueueOverrides (q : QueueProperties) (o : QueueOverrides) : QueueProperties :=
  { q with
    authorization_rules := ovr o.authorization_rules q.authorization_rules
    auto_delete_on_idle := ovr o.auto_delete_on_idle q.auto_delete_on_idle
    dead_lettering_on_message_expiration := ovr o.dead_lettering_on_message_expiration q.dead_lettering_on_message_expiration
    default_message_time_to_live := ovr o.default_message_time_to_live q.default_message_time_to_live
    duplicate_detection_history_time_window := ovr o.duplicate_detection_history_time_window q.duplicate_detection_history_time_window
    enable_batched_operations := ovr o.enable_batched_operations q.enable_batched_operations
    enable_express := ovr o.enable_express q.enable_express
    enable_partitioning := ovr o.enable_partitioning q.enable_partitioning
    lock_duration := ovr o.lock_duration q.lock_duration
    max_delivery_count := ovr o.max_delivery_count q.max_delivery_count
    max_size_in_megabytes := ovr o.max_size_in_megabytes q.max_size_in_megabytes
    requires_duplicate_detection := ovr o.requires_duplicate_detection q.requires_duplicate_detection
    requires_session := ovr o.requires_session q.requires_session
    status := ovr o.status q.status
    forward_to := ovr o.forward_to q.forward_to
    forward_dead_lettered_messages_to := ovr o.forward_dead_lettered_messages_to q.forward_dead_lettered_messages_to
    user_metadata := ovr o.user_metadata q.user_metadata
    max_message_size_in_kilobytes := ovr o.max_message_size_in_kilobytes q.max_message_size_in_kilobytes }

/-- Property overrides a caller can pass to update_topic. -/
structure TopicOverrides where
  default_message_time_to_live : Option TimeSpan := none
  max_size_in_megabytes : Option Int := none
  requires_duplicate_detection : Option Bool := none
  duplicate_detection_history_time_window : Option TimeSpan := none
  enable_batched_operations : Option Bool := none
  size_in_bytes : Option Int := none
  filtering_messages_before_publishing : Option Bool := none
  authorization_rules : Option (List AuthorizationRule) := none
  support_ordering : Option Bool := none
  auto_delete_on_idle : Option TimeSpan := none
  enable_partitioning : Option Bool := none
  enable_express : Option Bool := none
  status : Option String := none
  user_metadata : Option String := none
  max_message_size_in_kilobytes : Option Int := none
deriving DecidableEq

/-- Applies update_topic keyword overrides to the (copied) instance. -/
def applyTopicOverrides (t : TopicProperties) (o : TopicOverrides) : TopicProperties :=
  { t with
    default_message_time_to_live := ovr o.default_message_time_to_live t.default_message_time_to_live
    max_size_in_megabytes := ovr o.max_size_in_megabytes t.max_size_in_megabytes
    requires_duplicate_detection := ovr o.requires_duplicate_detection t.requires_duplicate_detection
    duplicate_detection_history_time_window := ovr o.duplicate_detection_history_time_window t.duplicate_detection_history_time_window
    enable_batched_operations := ovr o.enable_batched_operations t.enable_batched_operations
    size_in_bytes := ovr o.size_in_bytes t.size_in_bytes
    filtering_messages_before_publishing := ovr o.filtering_messages_before_publishing t.filtering_messages_before_publishing
    authorization_rules := ovr o.authorization_rules t.authorization_rules
    support_ordering := ovr o.support_ordering t.support_ordering
    auto_delete_on_idle := ovr o.auto_delete_on_idle t.auto_delete_on_idle
    enable_partitioning := ovr o.enable_partitioning t.enable_partitioning
    enable_express := ovr o.enable_express t.enable_express
    status := ovr o.status t.status
    user_metadata := ovr o.user_metadata t.user_metadata
    max_message_size_in_kilobytes := ovr o.max_message_size_in_kilobytes t.max_message_size_in_kilobytes }

/-- Property overrides a caller can pass to update_subscription. -/
structure SubscriptionOverrides where
  lock_duration : Option TimeSpan := none
  requires_session : Option Bool := none
  default_message_time_to_live : Option TimeSpan := none
  dead_lettering_on_message_expiration : Option Bool := none
  dead_lettering_on_filter_evaluation_exceptions : Option Bool := none
  max_delivery_count : Option Int := none
  enable_batched_operations : Option Bool := none
  status : Option String := none
  forward_to : Option String := none
  user_metadata : Option String := none
  forward_dead_lettered_messages_to : Option String := none
  auto_delete_on_idle : Option TimeSpan := none
deriving DecidableEq

/-- Applies update_subscription keyword overrides to the (copied)
instance. -/
def applySubscriptionOverrides (s : SubscriptionProperties) (o : SubscriptionOverrides) : SubscriptionProperties :=
  { s with
    lock_duration := ovr o.lock_duration s.lock_duration
    requires_session := ovr o.requires_session s.requires_session
    default_message_time_to_live := ovr o.default_message_time_to_live s.default_message_time_to_live
    dead_lettering_on_message_expiration := ovr o.dead_lettering_on_message_expiration s.dead_lettering_on_message_expiration
    dead_lettering_on_filter_evaluation_exceptions := ovr o.dead_lettering_on_filter_evaluation_exceptions s.dead_lettering_on_filter_evaluation_exceptions
    max_delivery_count := ovr o.max_delivery_count s.max_delivery_count
    enable_batched_operations := ovr o.enable_batched_operations s.enable_batched_operations
    status := ovr o.status s.status
    forward_to := ovr o.forward_to s.forward_to
    user_metadata := ovr o.user_metadata s.user_metadata
    forward_dead_lettered_messages_to := ovr o.forward_dead_lettered_messages_to s.forward_dead_lettered_messages_to
    auto_delete_on_idle := ovr o.auto_delete_on_idle s.auto_delete_on_idle }

/-- Property overrides a caller can pass to update_rule. -/
structure RuleOverrides where
  filter : Option RuleFilterObj := none
  action : Option SqlRuleAction := none
deriving DecidableEq

/-- Applies update_rule keyword overrides to the (copied) instance. -/
def applyRuleOverrides (r : RuleProperties) (o : RuleOverrides) : RuleProperties :=
  { r with
    filter := ovr o.filter r.filter
    action := ovr o.action r.action }

/-- Final step shared by the mutating operations: after the supplementary
token acquisition, a PUT is issued only when every token was obtained; a
token failure aborts the operation with the acquisition events recorded
and no request event. -/
def stepPut {R : Type} (F : List Event × Except AdminError Headers) (path : String)
    (mk : Headers → R) : List Event × Except AdminError R :=
  match F with
  | (evs, .error e) => (evs, .error e)
  | (evs, .ok hs) => (evs ++ [Event.putRequest path], .ok (mk hs))

/-- Keyword arguments of create_queue (lines 288-309). -/
structure CreateQueueArgs where
  authorization_rules : Option (List AuthorizationRule) := none
  auto_delete_on_idle : Option TimeSpan := none
  dead_lettering_on_message_expiration : Option Bool := none
  default_message_time_to_live : Option TimeSpan := none
  duplicate_detection_history_time_window : Option TimeSpan := none
  enable_batched_operations : Option Bool := none
  enable_express : Option Bool := none
  enable_partitioning : Option Bool := none
  lock_duration : Option TimeSpan := none
  max_delivery_count : Option Int := none
  max_size_in_megabytes : Option Int := none
  requires_duplicate_detection : Option Bool := none
  requires_session : Option Bool := none
  forward_to : Option String := none
  user_metadata : Option String := none
  forward_dead_lettered_messages_to : Option String := none
  max_message_size_in_kilobytes : Option Int := none
  status : Option String := none
deriving DecidableEq

/-- The QueueProperties assembly of create_queue (lines 376-402): the
forward targets are normalized against the namespace before the instance
is built. -/
def createQueueProperties (c : AdminClient) (queue_name : String) (a : CreateQueueArgs) :
    QueueProperties :=
  { name := queue_name
    authorization_rules := a.authorization_rules
    auto_delete_on_idle := a.auto_delete_on_idle
    dead_lettering_on_message_expiration := a.dead_lettering_on_message_expiration
    default_message_time_to_live := a.default_message_time_to_live
    duplicate_detection_history_time_window := a.duplicate_detection_history_time_window
    availability_status := none
    enable_batched_operations := a.enable_batched_operations
    enable_express := a.enable_express
    enable_partitioning := a.enable_partitioning
    lock_duration := a.lock_duration
    max_delivery_count := a.max_delivery_count
    max_size_in_megabytes := a.max_size_in_megabytes
    requires_duplicate_detection := a.requires_duplicate_detection
    requires_session := a.requires_session
    status := a.status
    forward_to := normalizeEntityPath c.fully_qualified_namespace a.forward_to
    forward_dead_lettered_messages_to :=
      normalizeEntityPath c.fully_qualified_namespace a.forward_dead_lettered_messages_to
    user_metadata := a.user_metadata
    max_message_size_in_kilobytes := a.max_message_size_in_kilobytes }

/-- Embeds the request-construction and dispatch part of create_queue
(lines 376-415): assemble the normalized QueueProperties, convert to the
wire description, serialize, acquire the supplementary forward-to tokens,
then PUT the entity.  The result is the request handed to the transport;
decoding the echoed entry (lines 417-422) consumes the response and is
outside this value. -/
def createQueue (c : AdminClient) (queue_name : String) (a : CreateQueueArgs) :
    List Event × Except AdminError QueuePutRequest :=
  let to_create := queueToInternal c.fully_qualified_namespace (createQueueProperties c queue_name a)
  stepPut
    (createForwardToHeaderTokens c.credential to_create.forward_to
      to_create.forward_dead_lettered_messages_to [])
    queue_name
    (fun headers =>
      { name := queue_name, body := to_create, matchCondition := .unconditionally, headers := headers })

/-- Embeds update_queue (lines 424-453): copy the caller instance, apply
the keyword overrides while converting to the wire description, acquire
the supplementary forward-to tokens, then PUT with the if-present
precondition.  The deep-copy discipline on the caller heap is modelled
separately by deepcopyThenMutate. -/
def updateQueue (c : AdminClient) (queue0 : QueueProperties) (ov : QueueOverrides) :
    List Event × Except AdminError QueuePutRequest :=
  let queue := applyQueueOverrides queue0 ov
  let to_update := queueToInternal c.fully_qualified_namespace queue
  stepPut
    (createForwardToHeaderTokens c.credential to_update.forward_to
      to_update.forward_dead_lettered_messages_to [])
    queue.name
    (fun headers =>
      { name := queue.name, body := to_update, matchCondition := .ifPresent, headers := headers })

/-- Embeds delete_queue (lines 455-467): validate the name, reject an empty
name, then DELETE inside the response-error guard. -/
def deleteQueue (queue_name : String) : List Event × Except AdminError Unit :=
  match validateEntityName queue_name with
  | .error e => ([], .error e)
  | .ok _ =>
      if queue_name.isEmpty then
        ([], .error (.valueError "queue_name must not be None or empty"))
      else
        ([Event.deleteRequest queue_name], .ok ())

/-- Embeds update_topic (lines 643-671): copy the caller instance, apply
the keyword overrides while converting, then PUT with the if-present
precondition.  Topics declare no forward target, so no supplementary token
step exists. -/
def updateTopic (topic0 : TopicProperties) (ov : TopicOverrides) :
    List Event × Except AdminError TopicPutRequest :=
  let topic := applyTopicOverrides topic0 ov
  let to_update := topicToInternal topic
  ([Event.putRequest topic.name],
   .ok { name := topic.name, body := to_update, matchCondition := .ifPresent })

/-- Embeds delete_topic (lines 673-681): validate the name, then DELETE.
Unlike delete_queue there is no empty-name rejection and the transport
call is made outside the response-error guard (see
adminClientRemoteCalls). -/
def deleteTopic (topic_name : String) : List Event × Except AdminError Unit :=
  match validateEntityName topic_name with
  | .error e => ([], .error e)
  | .ok _ => ([Event.deleteRequest topic_name], .ok ())

/-- Embeds _get_entity_element (lines 176-184), the fetch step behind
get_queue, get_queue_runtime_properties, get_topic and
get_topic_runtime_properties: validate the entity name, then GET the
entry element inside the guard.  The fetched element feeds the decode
functions getQueue, getQueueRuntimeProperties and getTopic. -/
def getEntityElement (entity_name : String) : List Event × Except AdminError Unit :=
  match validateEntityName entity_name with
  | .error e => ([], .error e)
  | .ok _ => ([Event.getRequest entity_name], .ok ())

/-- Embeds _get_subscription_element (lines 186-195), the fetch step behind
get_subscription and get_subscription_runtime_properties: validate the
topic and subscription names, then GET inside the guard. -/
def getSubscriptionElement (topic_name subscription_name : String) :
    List Event × Except AdminError Unit :=
  match validateEntityName topic_name with
  | .error e => ([], .error e)
  | .ok _ =>
  match validateEntityName subscription_name with
  | .error e => ([], .error e)
  | .ok _ =>
      ([Event.getRequest (topic_name ++ "/subscriptions/" ++ subscription_name)], .ok ())

/-- Embeds _get_rule_element (lines 197-205), the fetch step behind
get_rule: validate the topic, subscription and rule names, then GET inside
the guard. -/
def getRuleElement (topic_name subscription_name rule_name : String) :
    List Event × Except AdminError Unit :=
  match validateEntityName topic_name with
  | .error e => ([], .error e)
  | .ok _ =>
  match validateEntityName subscription_name with
  | .error e => ([], .error e)
  | .ok _ =>
  match validateEntityName rule_name with
  | .error e => ([], .error e)
  | .ok _ =>
      ([Event.getRequest
          (topic_name ++ "/subscriptions/" ++ subscription_name ++ "/rules/" ++ rule_name)],
       .ok ())

/-- Embeds delete_subscription (lines 903-913): validate the topic and
subscription names, then DELETE (outside the response-error guard, see
adminClientRemoteCalls). -/
def deleteSubscription (topic_name subscription_name : String) :
    List Event × Except AdminError Unit :=
  match validateEntityName topic_name with
  | .error e => ([], .error e)
  | .ok _ =>
  match validateEntityName subscription_name with
  | .error e => ([], .error e)
  | .ok _ =>
      ([Event.deleteRequest (topic_name ++ "/subscriptions/" ++ subscription_name)], .ok ())

/-- Embeds delete_rule (lines 1078-1089): validate the topic, subscription
and rule names, then DELETE (outside the response-error guard). -/
def deleteRule (topic_name subscription_name rule_name : String) :
    List Event × Except AdminError Unit :=
  match validateEntityName topic_name with
  | .error e => ([], .error e)
  | .ok _ =>
  match validateEntityName subscription_name with
  | .error e => ([], .error e)
  | .ok _ =>
  match validateEntityName rule_name with
  | .error e => ([], .error e)
  | .ok _ =>
      ([Event.deleteRequest
          (topic_name ++ "/subscriptions/" ++ subscription_name ++ "/rules/" ++ rule_name)],
       .ok ())

/-- Embeds the eager part of list_subscriptions (lines 915-934): the topic
name is validated at call time; the paged sequence is then constructed
without any immediate page fetch (page fetches happen lazily during
iteration, through the pagination engine outside this model). -/
def listSubscriptions (topic_name : String) : List Event × Except AdminError Unit :=
  match validateEntityName topic_name with
  | .error e => ([], .error e)
  | .ok _ => ([], .ok ())

/-- Embeds the eager part of list_rules (lines 1091-1120): the topic and
subscription names are validated at call time; the paged sequence is then
constructed without any immediate page fetch. -/
def listRules (topic_name subscription_name : String) :
    List Event × Except AdminError Unit :=
  match validateEntityName topic_name with
  | .error e => ([], .error e)
  | .ok _ =>
  match validateEntityName subscription_name with
  | .error e => ([], .error e)
  | .ok _ => ([], .ok ())

/-- Keyword arguments of create_subscription (lines 757-773). -/
structure CreateSubscriptionArgs where
  lock_duration : Option TimeSpan := none
  requires_session : Option Bool := none
  default_message_time_to_live : Option TimeSpan := none
  dead_lettering_on_message_expiration : Option Bool := none
  dead_lettering_on_filter_evaluation_exceptions : Option Bool := none
  max_delivery_count : Option Int := none
  enable_batched_operations : Option Bool := none
  forward_to : Option String := none
  user_metadata : Option String := none
  forward_dead_lettered_messages_to : Option String := none
  auto_delete_on_idle : Option TimeSpan := none
  status : Option String := none
deriving DecidableEq

/-- The SubscriptionProperties assembly of create_subscription (lines
823-844): the forward targets are normalized against the namespace before
the instance is built. -/
def createSubscriptionProperties (c : AdminClient) (subscription_name : String)
    (a : CreateSubscriptionArgs) : SubscriptionProperties :=
  { name := subscription_name
    lock_duration := a.lock_duration
    requires_session := a.requires_session
    default_message_time_to_live := a.default_message_time_to_live
    dead_lettering_on_message_expiration := a.dead_lettering_on_message_expiration
    dead_lettering_on_filter_evaluation_exceptions := a.dead_lettering_on_filter_evaluation_exceptions
    max_delivery_count := a.max_delivery_count
    enable_batched_operations := a.enable_batched_operations
    status := a.status
    forward_to := normalizeEntityPath c.fully_qualified_namespace a.forward_to
    user_metadata := a.user_metadata
    forward_dead_lettered_messages_to :=
      normalizeEntityPath c.fully_qualified_namespace a.forward_dead_lettered_messages_to
    auto_delete_on_idle := a.auto_delete_on_idle
    availability_status := none }

/-- Embeds the request-construction and dispatch part of create_subscription
(lines 822-858): validate the owning topic name, assemble the normalized
SubscriptionProperties, convert, acquire the supplementary tokens, then
PUT. -/
def createSubscription (c : AdminClient) (topic_name subscription_name : String)
    (a : CreateSubscriptionArgs) : List Event × Except AdminError SubscriptionPutRequest :=
  match validateEntityName topic_name with
  | .error e => ([], .error e)
  | .ok _ =>
      let to_create :=
        subscriptionToInternal c.fully_qualified_namespace
          (createSubscriptionProperties c subscription_name a)
      stepPut
        (createForwardToHeaderTokens c.credential to_create.forward_to
          to_create.forward_dead_lettered_messages_to [])
        (topic_name ++ "/subscriptions/" ++ subscription_name)
        (fun headers =>
          { topic_name := topic_name, name := subscription_name, body := to_create,
            matchCondition := .unconditionally, headers := headers })

/-- Embeds update_subscription (lines 867-901): validate the owning topic
name, copy the caller instance, apply the keyword overrides while
converting, acquire the supplementary tokens, then PUT with the if-present
precondition. -/
def updateSubscription (c : AdminClient) (topic_name : String)
    (subscription0 : SubscriptionProperties) (ov : SubscriptionOverrides) :
    List Event × Except AdminError SubscriptionPutRequest :=
  match validateEntityName topic_name with
  | .error e => ([], .error e)
  | .ok _ =>
      let subscription := applySubscriptionOverrides subscription0 ov
      let to_update := subscriptionToInternal c.fully_qualified_namespace subscription
      stepPut
        (createForwardToHeaderTokens c.credential to_update.forward_to
          to_update.forward_dead_lettered_messages_to [])
        (topic_name ++ "/subscriptions/" ++ subscription.name)
        (fun headers =>
          { topic_name := topic_name, name := subscription.name, body := to_update,
            matchCondition := .ifPresent, headers := headers })

/-- The default rule filter of create_rule.  CPython evaluates a default
argument expression once, when the def statement executes, so the value of
the filter keyword defaults to one fixed TrueRuleFilter object shared by
every call that omits the argument; its objId is that single allocation. -/
def createRule_default_filter : RuleFilterObj :=
  { objId := 0, kind := .trueFilter }

/-- Embeds create_rule (lines 981-1027): validate the topic and
subscription names, build RuleProperties with the filter argument (the
shared default object when the caller omits it), convert, then PUT.  The
rule key-value serialization workaround is a transport-level detail outside
this model. -/
def createRule (topic_name subscription_name rule_name : String)
    (filterArg : Option RuleFilterObj) (action : Option SqlRuleAction) :
    List Event × Except AdminError RulePutRequest :=
  match validateEntityName topic_name with
  | .error e => ([], .error e)
  | .ok _ =>
  match validateEntityName subscription_name with
  | .error e => ([], .error e)
  | .ok _ =>
      let filter := filterArg.getD createRule_default_filter
      let rule : RuleProperties :=
        { name := rule_name, filter := some filter, action := action, created_at_utc := none }
      let to_create := ruleToInternal rule
      ([Event.putRequest (topic_name ++ "/subscriptions/" ++ subscription_name ++ "/rules/" ++ rule_name)],
       .ok { topic_name := topic_name, subscription_name := subscription_name, name := rule_name,
             body := to_create, matchCondition := .unconditionally })

/-- Embeds update_rule (lines 1036-1076): validate the topic and
subscription names, copy the caller instance, apply the keyword overrides
while converting, then PUT with the if-present precondition. -/
def updateRule (topic_name subscription_name : String) (rule0 : RuleProperties)
    (ov : RuleOverrides) : List Event × Except AdminError RulePutRequest :=
  match validateEntityName topic_name with
  | .error e => ([], .error e)
  | .ok _ =>
  match validateEntityName subscription_name with
  | .error e => ([], .error e)
  | .ok _ =>
      let rule := applyRuleOverrides rule0 ov
      let to_update := ruleToInternal rule
      ([Event.putRequest (topic_name ++ "/subscriptions/" ++ subscription_name ++ "/rules/" ++ rule.name)],
       .ok { topic_name := topic_name, subscription_name := subscription_name, name := rule.name,
             body := to_update, matchCondition := .ifPresent })

/-- Credential constructed by from_connection_string. -/
inductive ConnStrCredential where
  | sasTokenCredential (token : String) (expiry : Nat)
  | sharedKeyCredential (key_name key : String)
deriving DecidableEq

/-- Strips everything up to and including the first scheme separator of the
endpoint, as the slice endpoint[endpoint.index("//") + 2 :] does when "//"
occurs in the endpoint. -/
def dropThroughDoubleSlash : List Char → Option (List Char)
  | '/' :: '/' :: rest => some rest
  | _ :: t => dropThroughDoubleSlash t
  | [] => none

/-- Endpoint munging of from_connection_string, lines 256-257. -/
def endpointAfterScheme (s : String) : String :=
  match dropThroughDoubleSlash s.toList with
  | some rest => String.mk rest
  | none => s

/-- Embeds from_connection_string (lines 233-258) downstream of the
external connection-string parse: the parse yields the endpoint, the
optional shared-access key name and value, the optional SAS token and its
expiry.  The credential local variable is assigned only in the two
recognized branches; when neither branch fires, referencing it in the
constructor call raises UnboundLocalError. -/
def from_connection_string (endpoint : String)
    (shared_access_key_name shared_access_key : Option String)
    (token : Option String) (token_expiry : Option Nat) :
    Except AdminError (String × ConnStrCredential) :=
  let credential? : Option ConnStrCredential :=
    if pyTruthyStr token && pyTruthyNat token_expiry then
      some (.sasTokenCredential (token.getD "") (token_expiry.getD 0))
    else if pyTruthyStr shared_access_key_name && pyTruthyStr shared_access_key then
      some (.sharedKeyCredential (shared_access_key_name.getD "") (shared_access_key.getD ""))
    else none
  let endpoint := endpointAfterScheme endpoint
  match credential? with
  | some credential => .ok (endpoint, credential)
  | none => .error (.unboundLocalError "credential")

/-- A heap of caller-visible Python objects, addressed by identity. -/
abbrev ObjHeap (α : Type) := List (Nat × α)

/-- Reads the object stored at an address. -/
def heapLookup {α : Type} : ObjHeap α → Nat → Option α
  | [], _ => none
  | (k, v) :: t, a => if k = a then some v else heapLookup t a

/-- An address not used by any object of the heap. -/
def freshAddr {α : Type} (h : ObjHeap α) : Nat :=
  (h.map Prod.fst).foldr max 0 + 1

/-- Overwrites the object stored at an existing address. -/
def heapSet {α : Type} : ObjHeap α → Nat → α → ObjHeap α
  | [], _, _ => []
  | (k, w) :: t, a, v => if k = a then (a, v) :: t else (k, w) :: heapSet t a v

/-- The copy-then-mutate discipline every update operation applies to the
caller-supplied instance (update_queue lines 439-441, update_topic lines
658-660, update_subscription lines 885-889, update_rule lines 1057-1059):
deepcopy the instance at the given address into a fresh object, mutate only
the copy, and hand the mutated copy on to serialization.  Returns the
resulting heap and the value that proceeds to the wire. -/
def deepcopyThenMutate {α : Type} (h : ObjHeap α) (a : Nat) (mutate : α → α) :
    ObjHeap α × Option α :=
  match heapLookup h a with
  | none => (h, none)
  | some v =>
      let c := freshAddr h
      let h1 := h ++ [(c, v)]
      let h2 := heapSet h1 c (mutate v)
      (h2, some (mutate v))

/-- The copy step of update_queue on the caller heap. -/
def updateQueueCopyStep (h : ObjHeap QueueProperties) (a : Nat) (ov : QueueOverrides) :
    ObjHeap QueueProperties × Option QueueProperties :=
  deepcopyThenMutate h a (fun q => applyQueueOverrides q ov)

/-- The copy step of update_topic on the caller heap. -/
def updateTopicCopyStep (h : ObjHeap TopicProperties) (a : Nat) (ov : TopicOverrides) :
    ObjHeap TopicProperties × Option TopicProperties :=
  deepcopyThenMutate h a (fun t => applyTopicOverrides t ov)

/-- The copy step of update_subscription on the caller heap. -/
def updateSubscriptionCopyStep (h : ObjHeap SubscriptionProperties) (a : Nat)
    (ov : SubscriptionOverrides) : ObjHeap SubscriptionProperties × Option SubscriptionProperties :=
  deepcopyThenMutate h a (fun s => applySubscriptionOverrides s ov)

/-- The copy step of update_rule on the caller heap. -/
def updateRuleCopyStep (h : ObjHeap RuleProperties) (a : Nat) (ov : RuleOverrides) :
    ObjHeap RuleProperties × Option RuleProperties :=
  deepcopyThenMutate h a (fun r => applyRuleOverrides r ov)

/-- One remote call a public operation makes through the underlying
implementation client, and whether the call executes inside the
with _handle_response_error() scoped guard. -/
structure RemoteCall where
  endpoint : String
  guarded : Bool
deriving DecidableEq

/-- One public operation together with its remote calls. -/
structure OperationCalls where
  op : String
  calls : List RemoteCall
deriving DecidableEq

/-- The remote-call map of every public operation of the administration
client, transcribed from the with-block structure of the source: the entity
reads go through the guarded element fetchers (lines 176-205), create and
update PUTs sit inside the guard (lines 411, 450, 631, 668, 854, 898, 1024,
1068), delete_queue guards its DELETE (line 466), while delete_topic (line
681), delete_subscription (line 913), delete_rule (line 1089) and
get_namespace_properties (line 1128) call the transport with no guard.
The page fetches of the list operations run through get_next_template of
the `_utils` module, which is outside the sampled sources; they are
modelled from the spec as guarded, the spec stating that a scoped guard
wraps every remote call of the pagination engine. -/
def adminClientRemoteCalls : List OperationCalls :=
  [ { op := "get_queue", calls := [{ endpoint := "entity.get", guarded := true }] },
    { op := "get_queue_runtime_properties", calls := [{ endpoint := "entity.get", guarded := true }] },
    { op := "create_queue", calls := [{ endpoint := "entity.put", guarded := true }] },
    { op := "update_queue", calls := [{ endpoint := "entity.put", guarded := true }] },
    { op := "delete_queue", calls := [{ endpoint := "entity.delete", guarded := true }] },
    { op := "list_queues", calls := [{ endpoint := "list_entities", guarded := true }] },
    { op := "list_queues_runtime_properties", calls := [{ endpoint := "list_entities", guarded := true }] },
    { op := "get_topic", calls := [{ endpoint := "entity.get", guarded := true }] },
    { op := "get_topic_runtime_properties", calls := [{ endpoint := "entity.get", guarded := true }] },
    { op := "create_topic", calls := [{ endpoint := "entity.put", guarded := true }] },
    { op := "update_topic", calls := [{ endpoint := "entity.put", guarded := true }] },
    { op := "delete_topic", calls := [{ endpoint := "entity.delete", guarded := false }] },
    { op := "list_topics", calls := [{ endpoint := "list_entities", guarded := true }] },
    { op := "list_topics_runtime_properties", calls := [{ endpoint := "list_entities", guarded := true }] },
    { op := "get_subscription", calls := [{ endpoint := "subscription.get", guarded := true }] },
    { op := "get_subscription_runtime_properties", calls := [{ endpoint := "subscription.get", guarded := true }] },
    { op := "create_subscription", calls := [{ endpoint := "subscription.put", guarded := true }] },
    { op := "update_subscription", calls := [{ endpoint := "subscription.put", guarded := true }] },
    { op := "delete_subscription", calls := [{ endpoint := "subscription.delete", guarded := false }] },
    { op := "list_subscriptions", calls := [{ endpoint := "list_subscriptions", guarded := true }] },
    { op := "list_subscriptions_runtime_properties", calls := [{ endpoint := "list_subscriptions", guarded := true }] },
    { op := "get_rule", calls := [{ endpoint := "rule.get", guarded := true }] },
    { op := "create_rule", calls := [{ endpoint := "rule.put", guarded := true }] },
    { op := "update_rule", calls := [{ endpoint := "rule.put", guarded := true }] },
    { op := "delete_rule", calls := [{ endpoint := "rule.delete", guarded := false }] },
    { op := "list_rules", calls := [{ endpoint := "list_rules", guarded := true }] },
    { op := "get_namespace_properties", calls := [{ endpoint := "namespace.get", guarded := false }] } ]

lemma stepPut_ok_req {R : Type} (F : List Event × Except AdminError Headers) (path : String)
    (mk : Headers → R) (req : R) (h : (stepPut F path mk).2 = .ok req) :
    ∃ hs, F.2 = .ok hs ∧ req = mk hs := by
  obtain ⟨evs, r⟩ := F
  cases r with
  | error e => simp [stepPut] at h
  | ok hs => simp [stepPut] at h; exact ⟨hs, rfl, h.symm⟩

lemma stepPut_ok_trace {R : Type} (F : List Event × Except AdminError Headers) (path : String)
    (mk : Headers → R) (req : R) (h : (stepPut F path mk).2 = .ok req) :
    (stepPut F path mk).1 = F.1 ++ [Event.putRequest path] := by
  obtain ⟨evs, r⟩ := F
  cases r with
  | error e => simp [stepPut] at h
  | ok hs => simp [stepPut]

lemma stepPut_error_trace {R : Type} (F : List Event × Except AdminError Headers) (path : String)
    (mk : Headers → R) (e : AdminError) (h : (stepPut F path mk).2 = .error e) :
    (stepPut F path mk).1 = F.1 := by
  obtain ⟨evs, r⟩ := F
  cases r with
  | error e₀ => simp [stepPut]
  | ok hs => simp [stepPut] at h

lemma populateHeader_events (cred : Credential) (uri header : String) (hs : Headers) :
    ∀ ev ∈ (populateHeaderWithinKwargs cred uri header hs).1, ev.isTokenEvent = true := by
  intro ev hev
  simp only [populateHeaderWithinKwargs] at hev
  split at hev
  · simp only [List.mem_singleton] at hev
    subst hev; rfl
  · simp only [List.mem_cons, List.mem_singleton, List.not_mem_nil, or_false] at hev
    rcases hev with h | h <;> (subst h; rfl)

lemma forwardHeaders_events (cred : Credential) (fwd fdl : Option String) (hs : Headers) :
    ∀ ev ∈ (createForwardToHeaderTokens cred fwd fdl hs).1, ev.isTokenEvent = true := by
  intro ev hev
  simp only [createForwardToHeaderTokens] at hev
  by_cases hf : pyTruthyStr fwd
  · simp only [hf, if_true] at hev
    rcases h1 : populateHeaderWithinKwargs cred (fwd.getD "") SUPPLEMENTARY_AUTHORIZATION_HEADER hs with ⟨evs1, r1⟩
    rw [h1] at hev
    have hall1 := populateHeader_events cred (fwd.getD "") SUPPLEMENTARY_AUTHORIZATION_HEADER hs
    rw [h1] at hall1
    cases r1 with
    | error e => exact hall1 ev hev
    | ok h1' =>
        simp only [List.mem_append] at hev
        rcases hev with hev | hev
        · exact hall1 ev hev
        · by_cases hd : pyTruthyStr fdl
          · simp only [hd, if_true] at hev
            have hall2 := populateHeader_events cred (fdl.getD "") DEAD_LETTER_SUPPLEMENTARY_AUTHORIZATION_HEADER h1'
            exact hall2 ev hev
          · simp [hd] at hev
  · simp only [hf, if_false, List.nil_append] at hev
    by_cases hd : pyTruthyStr fdl
    · simp only [hd, if_true] at hev
      exact populateHeader_events cred (fdl.getD "") DEAD_LETTER_SUPPLEMENTARY_AUTHORIZATION_HEADER hs ev hev
    · simp [hd] at hev

lemma no_put_of_tokens {l : List Event} (hall : ∀ ev ∈ l, ev.isTokenEvent = true) (p : String) :
    Event.putRequest p ∉ l := by
  intro hmem
  have := hall _ hmem
  simp [Event.isTokenEvent] at this

lemma hasSchemeSep_here (l : List Char) : hasSchemeSepList (':' :: '/' :: '/' :: l) = true := rfl

lemma hasSchemeSep_cons (c : Char) (l : List Char) (h : hasSchemeSepList l = true) :
    hasSchemeSepList (c :: l) = true := by
  rw [hasSchemeSepList.eq_def]
  split
  · rfl
  · next c' t heq =>
      injection heq with h1 h2
      subst h2
      exact h
  · next heq => exact absurd heq (by simp)

lemma sbPath_isAbsolute (fqns p : String) :
    isAbsoluteResourcePath ("sb://" ++ fqns ++ "/" ++ p) = true := by
  have h1 : ("sb://" : String).data = ['s', 'b', ':', '/', '/'] := rfl
  have h2 : ("/" : String).data = ['/'] := rfl
  have hd : ("sb://" ++ fqns ++ "/" ++ p).data
      = 's' :: 'b' :: ':' :: '/' :: '/' :: (fqns.data ++ '/' :: p.data) := by
    simp [String.data_append, h1, h2]
  show hasSchemeSepList ("sb://" ++ fqns ++ "/" ++ p).data = true
  rw [hd]
  exact hasSchemeSep_cons _ _ (hasSchemeSep_cons _ _ (hasSchemeSep_here _))

lemma normalizeEntityPath_idem (fqns : String) (o : Option String) :
    normalizeEntityPath fqns (normalizeEntityPath fqns o) = normalizeEntityPath fqns o := by
  cases o with
  | none => rfl
  | some p =>
      by_cases he : p.isEmpty
      · simp [normalizeEntityPath, he]
      · by_cases ha : isAbsoluteResourcePath p
        · simp [normalizeEntityPath, he, ha]
        · simp [normalizeEntityPath, he, ha, sbPath_isAbsolute]

lemma heapLookup_mem {α : Type} (h : ObjHeap α) (a : Nat) (v : α)
    (hv : heapLookup h a = some v) : (a, v) ∈ h := by
  induction h with
  | nil => simp [heapLookup] at hv
  | cons p t ih =>
      obtain ⟨k, w⟩ := p
      by_cases hk : k = a
      · subst hk
        simp [heapLookup] at hv
        subst hv
        exact List.mem_cons_self _ _
      · simp [heapLookup, hk] at hv
        exact List.mem_cons_of_mem _ (ih hv)

lemma mem_lt_freshAddr {α : Type} (h : ObjHeap α) (k : Nat) (v : α)
    (hm : (k, v) ∈ h) : k < freshAddr h := by
  have hle : k ≤ (h.map Prod.fst).foldr max 0 := by
    induction h with
    | nil => simp at hm
    | cons p t ih =>
        rcases List.mem_cons.mp hm with h1 | h1
        · subst h1
          exact le_max_left _ _
        · exact le_trans (ih h1) (le_max_right _ _)
  unfold freshAddr
  omega

lemma heapLookup_append_ne {α : Type} (h : ObjHeap α) (b : Nat) (v : α) (k : Nat)
    (hk : k ≠ b) : heapLookup (h ++ [(b, v)]) k = heapLookup h k := by
  induction h with
  | nil => simp [heapLookup, (Ne.symm hk : b ≠ k)]
  | cons p t ih =>
      obtain ⟨k', w⟩ := p
      by_cases hk' : k' = k <;> simp [heapLookup, hk', ih]

lemma heapLookup_set_ne {α : Type} (h : ObjHeap α) (a : Nat) (v : α) (k : Nat)
    (hk : k ≠ a) : heapLookup (heapSet h a v) k = heapLookup h k := by
  induction h with
  | nil => rfl
  | cons p t ih =>
      obtain ⟨k', w⟩ := p
      by_cases h1 : k' = a
      · subst h1
        simp [heapSet, heapLookup, (Ne.symm hk : k' ≠ k)]
      · by_cases h2 : k' = k <;> simp [heapSet, heapLookup, h1, h2, hk, ih]

lemma deepcopyThenMutate_preserves {α : Type} (h : ObjHeap α) (a : Nat) (f : α → α)
    (v : α) (hv : heapLookup h a = some v) :
    heapLookup (deepcopyThenMutate h a f).1 a = some v
      ∧ (deepcopyThenMutate h a f).2 = some (f v) := by
  have hne : a ≠ freshAddr h :=
    Nat.ne_of_lt (mem_lt_freshAddr h a v (heapLookup_mem h a v hv))
  constructor
  · simp only [deepcopyThenMutate, hv]
    rw [heapLookup_set_ne _ _ _ _ hne, heapLookup_append_ne _ _ _ _ hne, hv]
  · simp [deepcopyThenMutate, hv]

/-- A token credential whose acquisitions succeed, for concrete runs. -/
def sampleCredential : Credential :=
  { kind := .tokenCredential, getToken := fun _ => .ok "token-value" }

/-- A concrete client on a fixed namespace. -/
def sampleClient : AdminClient :=
  { fully_qualified_namespace := "myns.servicebus.windows.net", credential := sampleCredential }

/-- A token credential whose acquisitions fail, for concrete runs. -/
def failingCredential : Credential :=
  { kind := .tokenCredential, getToken := fun _ => .error (.tokenError "acquisition failed") }

/-- A concrete client whose token acquisitions fail. -/
def failingClient : AdminClient :=
  { fully_qualified_namespace := "myns.servicebus.windows.net", credential := failingCredential }

/-- create_queue arguments declaring a forward target. -/
def fwdArgs : CreateQueueArgs := { forward_to := some "dest" }

/-- A concrete queue instance. -/
def sampleQueue : QueueProperties := { name := "q" }

/-- The request update_queue sends for sampleQueue on sampleClient. -/
def sampleQueueUpdateReq : QueuePutRequest :=
  { name := "q"
    body := queueToInternal sampleClient.fully_qualified_namespace sampleQueue
    matchCondition := .ifPresent
    headers := [] }

/-- A concrete topic instance. -/
def sampleTopic : TopicProperties := { name := "t" }

/-- The request update_topic sends for sampleTopic. -/
def sampleTopicUpdateReq : TopicPutRequest :=
  { name := "t", body := topicToInternal sampleTopic, matchCondition := .ifPresent }

/-- A concrete subscription instance. -/
def sampleSubscription : SubscriptionProperties := { name := "s" }

/-- The request update_subscription sends for sampleSubscription. -/
def sampleSubscriptionUpdateReq : SubscriptionPutRequest :=
  { topic_name := "t", name := "s"
    body := subscriptionToInternal sampleClient.fully_qualified_namespace sampleSubscription
    matchCondition := .ifPresent
    headers := [] }

/-- A concrete rule instance. -/
def sampleRule : RuleProperties := { name := "r" }

/-- The request update_rule sends for sampleRule. -/
def sampleRuleUpdateReq : RulePutRequest :=
  { topic_name := "t", subscription_name := "s", name := "r"
    body := ruleToInternal sampleRule, matchCondition := .ifPresent }

/-- C1: every update operation (update_queue, update_topic,
update_subscription, update_rule) sends its PUT carrying the if-present
precondition, and the precondition is attached unconditionally: the
operation behaves identically whatever version tag the caller's in-memory
entity carries, so the precondition neither reads nor compares that tag. -/
theorem update_ops_attach_ifPresent_unconditionally :
    (∀ (c : AdminClient) (q : QueueProperties) (ov : QueueOverrides) (req : QueuePutRequest),
        (updateQueue c q ov).2 = .ok req → req.matchCondition = .ifPresent)
  ∧ (∀ (t : TopicProperties) (ov : TopicOverrides) (req : TopicPutRequest),
        (updateTopic t ov).2 = .ok req → req.matchCondition = .ifPresent)
  ∧ (∀ (c : AdminClient) (tn : String) (s : SubscriptionProperties) (ov : SubscriptionOverrides)
        (req : SubscriptionPutRequest),
        (updateSubscription c tn s ov).2 = .ok req → req.matchCondition = .ifPresent)
  ∧ (∀ (tn sn : String) (r : RuleProperties) (ov : RuleOverrides) (req : RulePutRequest),
        (updateRule tn sn r ov).2 = .ok req → req.matchCondition = .ifPresent)
  ∧ (∀ (c : AdminClient) (q : QueueProperties) (ov : QueueOverrides) (tag : Option String),
        updateQueue c { q with version_tag := tag } ov = updateQueue c q ov)
  ∧ (∀ (t : TopicProperties) (ov : TopicOverrides) (tag : Option String),
        updateTopic { t with version_tag := tag } ov = updateTopic t ov)
  ∧ (∀ (c : AdminClient) (tn : String) (s : SubscriptionProperties) (ov : SubscriptionOverrides)
        (tag : Option String),
        updateSubscription c tn { s with version_tag := tag } ov = updateSubscription c tn s ov) := by
  refine ⟨?_, ?_, ?_, ?_, ?_, ?_, ?_⟩
  · intro c q ov req h
    simp only [updateQueue] at h
    obtain ⟨hs, _, hreq⟩ := stepPut_ok_req _ _ _ _ h
    subst hreq
    rfl
  · intro t ov req h
    simp only [updateTopic, Except.ok.injEq] at h
    subst h
    rfl
  · intro c tn s ov req h
    cases hv : validateEntityName tn with
    | error e =>
        simp only [updateSubscription, hv] at h
        exact Except.noConfusion h
    | ok u =>
        simp only [updateSubscription, hv] at h
        obtain ⟨hs, _, hreq⟩ := stepPut_ok_req _ _ _ _ h
        subst hreq
        rfl
  · intro tn sn r ov req h
    cases hv : validateEntityName tn with
    | error e =>
        simp only [updateRule, hv] at h
        exact Except.noConfusion h
    | ok u =>
        cases hv2 : validateEntityName sn with
        | error e =>
            simp only [updateRule, hv, hv2] at h
            exact Except.noConfusion h
        | ok u2 =>
            simp only [updateRule, hv, hv2, Except.ok.injEq] at h
            subst h
            rfl
  · intro c q ov tag
    rfl
  · intro t ov tag
    rfl
  · intro c tn s ov tag
    rfl

/-- Witness for C1 at concrete inputs. -/
theorem update_ops_attach_ifPresent_unconditionally_witness :
    sampleQueueUpdateReq.matchCondition = .ifPresent
  ∧ sampleTopicUpdateReq.matchCondition = .ifPresent
  ∧ sampleSubscriptionUpdateReq.matchCondition = .ifPresent
  ∧ sampleRuleUpdateReq.matchCondition = .ifPresent :=
  ⟨update_ops_attach_ifPresent_unconditionally.1 sampleClient sampleQueue {} _ rfl,
   update_ops_attach_ifPresent_unconditionally.2.1 sampleTopic {} _ rfl,
   update_ops_attach_ifPresent_unconditionally.2.2.1 sampleClient "t" sampleSubscription {} _ rfl,
   update_ops_attach_ifPresent_unconditionally.2.2.2.1 "t" "s" sampleRule {} _ rfl⟩

/-- C2: each get operation (get_queue, get_queue_runtime_properties,
get_topic, get_subscription, get_rule), given a decoded response envelope
with no content element, raises ResourceNotFoundError instead of returning
a value, whatever the entity names and the envelope title. -/
theorem get_ops_raise_not_found_on_missing_content :
    (∀ (qn : String) (title : Option String),
        getQueue qn { title := title, content := none }
          = .error (.resourceNotFound ("Queue \x27" ++ qn ++ "\x27 does not exist")))
  ∧ (∀ (qn : String) (title : Option String),
        getQueueRuntimeProperties qn { title := title, content := none }
          = .error (.resourceNotFound ("Queue " ++ qn ++ " does not exist")))
  ∧ (∀ (tn : String) (title : Option String),
        getTopic tn { title := title, content := none }
          = .error (.resourceNotFound ("Topic \x27" ++ tn ++ "\x27 does not exist")))
  ∧ (∀ (tn sn : String) (title : Option String),
        getSubscription tn sn { title := title, content := none }
          = .error (.resourceNotFound
              ("Subscription(\x27Topic: " ++ sn ++ ", Subscription: " ++ tn ++ "\x27) does not exist")))
  ∧ (∀ (tn sn rn : String) (title : Option String),
        getRule tn sn rn { title := title, content := none }
          = .error (.resourceNotFound
              ("Rule(\x27Topic: " ++ sn ++ ", Subscription: " ++ tn ++ ", Rule " ++ rn ++ "\x27) does not exist"))) :=
  ⟨fun _ _ => rfl, fun _ _ => rfl, fun _ _ => rfl, fun _ _ _ => rfl, fun _ _ _ _ => rfl⟩

/-- C3 counterexample: it is not the case that every remote call of every
public operation executes inside the error-translating scoped guard —
delete_topic (source line 681) calls the transport outside the
with-statement. -/
theorem not_every_remote_call_guarded :
    ¬ (∀ oc ∈ adminClientRemoteCalls, ∀ call ∈ oc.calls, call.guarded = true) := by
  intro hall
  have hmem : (⟨"delete_topic", [⟨"entity.delete", false⟩]⟩ : OperationCalls) ∈ adminClientRemoteCalls := by
    simp [adminClientRemoteCalls]
  have := hall _ hmem (⟨"entity.delete", false⟩ : RemoteCall) (by simp)
  simp at this

/-- C3 amended: the operations with a remote call outside the
error-translating scoped guard are exactly delete_topic,
delete_subscription, delete_rule and get_namespace_properties; every
remote call of every other public operation executes inside the guard. -/
theorem unguarded_remote_calls_characterized :
    (adminClientRemoteCalls.filter
        (fun oc => oc.calls.any (fun call => !call.guarded))).map (fun oc => oc.op)
      = ["delete_topic", "delete_subscription", "delete_rule", "get_namespace_properties"] := by
  rfl

lemma populateHeader_ok_shape (cred : Credential) (uri header : String) (hs h' : Headers)
    (h : (populateHeaderWithinKwargs cred uri header hs).2 = .ok h') :
    ∃ tokv, h' = dictSet hs header tokv := by
  simp only [populateHeaderWithinKwargs] at h
  rcases hg : cred.getToken (if cred.kind.isSasOrSharedKey then uri else JWT_TOKEN_SCOPE) with e | t
  · rw [hg] at h
    simp at h
  · rw [hg] at h
    simp at h
    exact ⟨_, h.symm⟩

/-- C4: for an entity with forward targets, a SAS-token or shared-key
credential has its supplementary token acquired with the literal target
URI as scope and injected raw, any other credential has its token acquired
for the fixed management-audience scope and injected with the Bearer
marker, and when both forward targets are present two supplementary
headers are set under distinct names. -/
theorem forward_token_scope_and_injection :
    (∀ (g : String → Except AdminError String) (uri header tok : String) (hs : Headers),
        g uri = .ok tok →
          populateHeaderWithinKwargs { kind := .sasToken, getToken := g } uri header hs
            = ([Event.tokenRequest uri, Event.headerSet header tok], .ok (dictSet hs header tok)))
  ∧ (∀ (g : String → Except AdminError String) (uri header tok : String) (hs : Headers),
        g uri = .ok tok →
          populateHeaderWithinKwargs { kind := .sharedKey, getToken := g } uri header hs
            = ([Event.tokenRequest uri, Event.headerSet header tok], .ok (dictSet hs header tok)))
  ∧ (∀ (g : String → Except AdminError String) (uri header tok : String) (hs : Headers),
        g JWT_TOKEN_SCOPE = .ok tok →
          populateHeaderWithinKwargs { kind := .tokenCredential, getToken := g } uri header hs
            = ([Event.tokenRequest JWT_TOKEN_SCOPE, Event.headerSet header ("Bearer " ++ tok)],
               .ok (dictSet hs header ("Bearer " ++ tok))))
  ∧ SUPPLEMENTARY_AUTHORIZATION_HEADER ≠ DEAD_LETTER_SUPPLEMENTARY_AUTHORIZATION_HEADER
  ∧ (∀ (cred : Credential) (f d : String) (hs : Headers),
        pyTruthyStr (some f) = true → pyTruthyStr (some d) = true →
        (createForwardToHeaderTokens cred (some f) (some d) []).2 = .ok hs →
          ((hs.find? (fun p => p.1 = SUPPLEMENTARY_AUTHORIZATION_HEADER)).isSome = true
            ∧ (hs.find? (fun p => p.1 = DEAD_LETTER_SUPPLEMENTARY_AUTHORIZATION_HEADER)).isSome = true)) := by
  refine ⟨?_, ?_, ?_, ?_, ?_⟩
  · intro g uri header tok hs hg
    simp [populateHeaderWithinKwargs, CredentialKind.isSasOrSharedKey, hg]
  · intro g uri header tok hs hg
    simp [populateHeaderWithinKwargs, CredentialKind.isSasOrSharedKey, hg]
  · intro g uri header tok hs hg
    simp [populateHeaderWithinKwargs, CredentialKind.isSasOrSharedKey, hg]
  · decide
  · intro cred f d hs hf hd hok
    simp only [createForwardToHeaderTokens, hf, if_true] at hok
    rcases h1 : populateHeaderWithinKwargs cred ((some f).getD "") SUPPLEMENTARY_AUTHORIZATION_HEADER []
      with ⟨evs1, r1⟩
    rw [h1] at hok
    cases r1 with
    | error e => simp at hok
    | ok h1' =>
        simp only [hd, if_true] at hok
        rcases h2 : populateHeaderWithinKwargs cred ((some d).getD "")
            DEAD_LETTER_SUPPLEMENTARY_AUTHORIZATION_HEADER h1' with ⟨evs2, r2⟩
        rw [h2] at hok
        cases r2 with
        | error e => simp at hok
        | ok h2' =>
            simp at hok
            subst hok
            obtain ⟨t1, ht1⟩ :=
              populateHeader_ok_shape cred ((some f).getD "") SUPPLEMENTARY_AUTHORIZATION_HEADER [] h1'
                (by rw [h1])
            obtain ⟨t2, ht2⟩ :=
              populateHeader_ok_shape cred ((some d).getD "")
                DEAD_LETTER_SUPPLEMENTARY_AUTHORIZATION_HEADER h1' h2' (by rw [h2])
            subst ht1
            subst ht2
            simp [dictSet, SUPPLEMENTARY_AUTHORIZATION_HEADER,
              DEAD_LETTER_SUPPLEMENTARY_AUTHORIZATION_HEADER]

/-- A SAS-style token provider for concrete runs. -/
def sampleSasGetToken : String → Except AdminError String := fun _ => .ok "sas-token-value"

/-- The headers produced when both forward targets are present on
sampleCredential. -/
def sampleForwardHeaders : Headers :=
  [(SUPPLEMENTARY_AUTHORIZATION_HEADER, "Bearer token-value"),
   (DEAD_LETTER_SUPPLEMENTARY_AUTHORIZATION_HEADER, "Bearer token-value")]

/-- Witness for C4 at concrete inputs. -/
theorem forward_token_scope_and_injection_witness :
    (populateHeaderWithinKwargs { kind := .sasToken, getToken := sampleSasGetToken }
        "sb://myns.servicebus.windows.net/dest" SUPPLEMENTARY_AUTHORIZATION_HEADER []
      = ([Event.tokenRequest "sb://myns.servicebus.windows.net/dest",
          Event.headerSet SUPPLEMENTARY_AUTHORIZATION_HEADER "sas-token-value"],
         .ok (dictSet [] SUPPLEMENTARY_AUTHORIZATION_HEADER "sas-token-value")))
  ∧ (populateHeaderWithinKwargs { kind := .sharedKey, getToken := sampleSasGetToken }
        "sb://myns.servicebus.windows.net/dest" SUPPLEMENTARY_AUTHORIZATION_HEADER []
      = ([Event.tokenRequest "sb://myns.servicebus.windows.net/dest",
          Event.headerSet SUPPLEMENTARY_AUTHORIZATION_HEADER "sas-token-value"],
         .ok (dictSet [] SUPPLEMENTARY_AUTHORIZATION_HEADER "sas-token-value")))
  ∧ (populateHeaderWithinKwargs { kind := .tokenCredential, getToken := sampleCredential.getToken }
        "sb://myns.servicebus.windows.net/dest" SUPPLEMENTARY_AUTHORIZATION_HEADER []
      = ([Event.tokenRequest JWT_TOKEN_SCOPE,
          Event.headerSet SUPPLEMENTARY_AUTHORIZATION_HEADER "Bearer token-value"],
         .ok (dictSet [] SUPPLEMENTARY_AUTHORIZATION_HEADER "Bearer token-value")))
  ∧ ((sampleForwardHeaders.find? (fun p => p.1 = SUPPLEMENTARY_AUTHORIZATION_HEADER)).isSome = true
      ∧ (sampleForwardHeaders.find?
            (fun p => p.1 = DEAD_LETTER_SUPPLEMENTARY_AUTHORIZATION_HEADER)).isSome = true) :=
  ⟨forward_token_scope_and_injection.1 sampleSasGetToken
      "sb://myns.servicebus.windows.net/dest" SUPPLEMENTARY_AUTHORIZATION_HEADER
      "sas-token-value" [] rfl,
   forward_token_scope_and_injection.2.1 sampleSasGetToken
      "sb://myns.servicebus.windows.net/dest" SUPPLEMENTARY_AUTHORIZATION_HEADER
      "sas-token-value" [] rfl,
   forward_token_scope_and_injection.2.2.1 sampleCredential.getToken
      "sb://myns.servicebus.windows.net/dest" SUPPLEMENTARY_AUTHORIZATION_HEADER
      "token-value" [] rfl,
   forward_token_scope_and_injection.2.2.2.2 sampleCredential "a" "b"
      sampleForwardHeaders rfl rfl rfl⟩

/-- C5: for create_queue, update_queue, create_subscription and
update_subscription, every supplementary token event strictly precedes the
primary PUT (on success the trace is the token events followed by the one
PUT), and when the operation fails — in particular when token acquisition
raises — no PUT request is ever part of the trace. -/
theorem forward_token_acquisition_precedes_put :
    (∀ (c : AdminClient) (qn : String) (a : CreateQueueArgs),
        (∀ e, (createQueue c qn a).2 = .error e →
            ∀ p, Event.putRequest p ∉ (createQueue c qn a).1)
      ∧ (∀ req, (createQueue c qn a).2 = .ok req →
            (createQueue c qn a).1 = (createQueue c qn a).1.dropLast ++ [Event.putRequest qn]
          ∧ ∀ ev ∈ (createQueue c qn a).1.dropLast, ev.isTokenEvent = true))
  ∧ (∀ (c : AdminClient) (q : QueueProperties) (ov : QueueOverrides),
        (∀ e, (updateQueue c q ov).2 = .error e →
            ∀ p, Event.putRequest p ∉ (updateQueue c q ov).1)
      ∧ (∀ req, (updateQueue c q ov).2 = .ok req →
            (updateQueue c q ov).1
              = (updateQueue c q ov).1.dropLast ++ [Event.putRequest (applyQueueOverrides q ov).name]
          ∧ ∀ ev ∈ (updateQueue c q ov).1.dropLast, ev.isTokenEvent = true))
  ∧ (∀ (c : AdminClient) (tn sn : String) (a : CreateSubscriptionArgs),
        (∀ e, (createSubscription c tn sn a).2 = .error e →
            ∀ p, Event.putRequest p ∉ (createSubscription c tn sn a).1)
      ∧ (∀ req, (createSubscription c tn sn a).2 = .ok req →
            (createSubscription c tn sn a).1
              = (createSubscription c tn sn a).1.dropLast
                  ++ [Event.putRequest (tn ++ "/subscriptions/" ++ sn)]
          ∧ ∀ ev ∈ (createSubscription c tn sn a).1.dropLast, ev.isTokenEvent = true))
  ∧ (∀ (c : AdminClient) (tn : String) (s : SubscriptionProperties) (ov : SubscriptionOverrides),
        (∀ e, (updateSubscription c tn s ov).2 = .error e →
            ∀ p, Event.putRequest p ∉ (updateSubscription c tn s ov).1)
      ∧ (∀ req, (updateSubscription c tn s ov).2 = .ok req →
            (updateSubscription c tn s ov).1
              = (updateSubscription c tn s ov).1.dropLast
                  ++ [Event.putRequest (tn ++ "/subscriptions/" ++ (applySubscriptionOverrides s ov).name)]
          ∧ ∀ ev ∈ (updateSubscription c tn s ov).1.dropLast, ev.isTokenEvent = true)) := by
  refine ⟨?_, ?_, ?_, ?_⟩
  · intro c qn a
    constructor
    · intro e he p hmem
      simp only [createQueue] at he hmem
      rw [stepPut_error_trace _ _ _ _ he] at hmem
      exact no_put_of_tokens (forwardHeaders_events _ _ _ _) p hmem
    · intro req hok
      simp only [createQueue] at hok ⊢
      have htr := stepPut_ok_trace _ _ _ _ hok
      rw [htr, List.dropLast_concat]
      exact ⟨rfl, forwardHeaders_events _ _ _ _⟩
  · intro c q ov
    constructor
    · intro e he p hmem
      simp only [updateQueue] at he hmem
      rw [stepPut_error_trace _ _ _ _ he] at hmem
      exact no_put_of_tokens (forwardHeaders_events _ _ _ _) p hmem
    · intro req hok
      simp only [updateQueue] at hok ⊢
      have htr := stepPut_ok_trace _ _ _ _ hok
      rw [htr, List.dropLast_concat]
      exact ⟨rfl, forwardHeaders_events _ _ _ _⟩
  · intro c tn sn a
    cases hv : validateEntityName tn with
    | error e0 =>
        constructor
        · intro e he p hmem
          simp only [createSubscription, hv] at hmem
          simp at hmem
        · intro req hok
          simp only [createSubscription, hv] at hok
          exact Except.noConfusion hok
    | ok u =>
        constructor
        · intro e he p hmem
          simp only [createSubscription, hv] at he hmem
          rw [stepPut_error_trace _ _ _ _ he] at hmem
          exact no_put_of_tokens (forwardHeaders_events _ _ _ _) p hmem
        · intro req hok
          simp only [createSubscription, hv] at hok ⊢
          have htr := stepPut_ok_trace _ _ _ _ hok
          rw [htr, List.dropLast_concat]
          exact ⟨rfl, forwardHeaders_events _ _ _ _⟩
  · intro c tn s ov
    cases hv : validateEntityName tn with
    | error e0 =>
        constructor
        · intro e he p hmem
          simp only [updateSubscription, hv] at hmem
          simp at hmem
        · intro req hok
          simp only [updateSubscription, hv] at hok
          exact Except.noConfusion hok
    | ok u =>
        constructor
        · intro e he p hmem
          simp only [updateSubscription, hv] at he hmem
          rw [stepPut_error_trace _ _ _ _ he] at hmem
          exact no_put_of_tokens (forwardHeaders_events _ _ _ _) p hmem
        · intro req hok
          simp only [updateSubscription, hv] at hok ⊢
          have htr := stepPut_ok_trace _ _ _ _ hok
          rw [htr, List.dropLast_concat]
          exact ⟨rfl, forwardHeaders_events _ _ _ _⟩

/-- A subscription instance declaring a forward target. -/
def fwdSubscription : SubscriptionProperties := { name := "s", forward_to := some "dest" }

/-- The request create_queue sends for fwdArgs on sampleClient. -/
def sampleCreateFwdReq : QueuePutRequest :=
  { name := "q"
    body := queueToInternal sampleClient.fully_qualified_namespace
      (createQueueProperties sampleClient "q" fwdArgs)
    matchCondition := .unconditionally
    headers := [(SUPPLEMENTARY_AUTHORIZATION_HEADER, "Bearer token-value")] }

/-- The request update_subscription sends for fwdSubscription on
sampleClient. -/
def sampleSubUpdateFwdReq : SubscriptionPutRequest :=
  { topic_name := "t", name := "s"
    body := subscriptionToInternal sampleClient.fully_qualified_namespace fwdSubscription
    matchCondition := .ifPresent
    headers := [(SUPPLEMENTARY_AUTHORIZATION_HEADER, "Bearer token-value")] }

/-- Witness for C5 at concrete inputs: a failing token acquisition leaves
no PUT in the trace, and successful runs put every token event before the
single PUT. -/
theorem forward_token_acquisition_precedes_put_witness :
    Event.putRequest "q" ∉ (createQueue failingClient "q" fwdArgs).1
  ∧ ((createQueue sampleClient "q" fwdArgs).1
        = (createQueue sampleClient "q" fwdArgs).1.dropLast ++ [Event.putRequest "q"]
      ∧ ∀ ev ∈ (createQueue sampleClient "q" fwdArgs).1.dropLast, ev.isTokenEvent = true)
  ∧ Event.putRequest ("t" ++ "/subscriptions/" ++ (applySubscriptionOverrides fwdSubscription {}).name)
      ∉ (updateSubscription failingClient "t" fwdSubscription {}).1
  ∧ ((updateSubscription sampleClient "t" fwdSubscription {}).1
        = (updateSubscription sampleClient "t" fwdSubscription {}).1.dropLast
            ++ [Event.putRequest ("t" ++ "/subscriptions/" ++ (applySubscriptionOverrides fwdSubscription {}).name)]
      ∧ ∀ ev ∈ (updateSubscription sampleClient "t" fwdSubscription {}).1.dropLast,
          ev.isTokenEvent = true) :=
  ⟨(forward_token_acquisition_precedes_put.1 failingClient "q" fwdArgs).1
      (.tokenError "acquisition failed") rfl "q",
   (forward_token_acquisition_precedes_put.1 sampleClient "q" fwdArgs).2
      sampleCreateFwdReq rfl,
   (forward_token_acquisition_precedes_put.2.2.2 failingClient "t" fwdSubscription {}).1
      (.tokenError "acquisition failed") rfl _,
   (forward_token_acquisition_precedes_put.2.2.2 sampleClient "t" fwdSubscription {}).2
      sampleSubUpdateFwdReq rfl⟩

/-- C6: create_queue and create_subscription serialize forward targets in
normalized form — the wire description carries exactly the normalization of
the caller value — and the normalization expands a bare name to the
absolute resource path rooted at the namespace while passing an
already-absolute path through unchanged. -/
theorem forward_targets_normalized_before_serialization :
    (∀ (c : AdminClient) (qn : String) (a : CreateQueueArgs) (req : QueuePutRequest),
        (createQueue c qn a).2 = .ok req →
          req.body.forward_to = normalizeEntityPath c.fully_qualified_namespace a.forward_to
        ∧ req.body.forward_dead_lettered_messages_to
            = normalizeEntityPath c.fully_qualified_namespace a.forward_dead_lettered_messages_to)
  ∧ (∀ (c : AdminClient) (tn sn : String) (a : CreateSubscriptionArgs)
        (req : SubscriptionPutRequest),
        (createSubscription c tn sn a).2 = .ok req →
          req.body.forward_to = normalizeEntityPath c.fully_qualified_namespace a.forward_to
        ∧ req.body.forward_dead_lettered_messages_to
            = normalizeEntityPath c.fully_qualified_namespace a.forward_dead_lettered_messages_to)
  ∧ (∀ (fqns p : String), isAbsoluteResourcePath p = true →
        normalizeEntityPath fqns (some p) = some p)
  ∧ (∀ (fqns p : String), p.isEmpty = false → isAbsoluteResourcePath p = false →
        normalizeEntityPath fqns (some p) = some ("sb://" ++ fqns ++ "/" ++ p)
      ∧ isAbsoluteResourcePath ("sb://" ++ fqns ++ "/" ++ p) = true) := by
  refine ⟨?_, ?_, ?_, ?_⟩
  · intro c qn a req hok
    simp only [createQueue] at hok
    obtain ⟨hs, _, hreq⟩ := stepPut_ok_req _ _ _ _ hok
    subst hreq
    constructor
    · simp [queueToInternal, createQueueProperties, normalizeEntityPath_idem]
    · simp [queueToInternal, createQueueProperties, normalizeEntityPath_idem]
  · intro c tn sn a req hok
    cases hv : validateEntityName tn with
    | error e =>
        simp only [createSubscription, hv] at hok
        exact Except.noConfusion hok
    | ok u =>
        simp only [createSubscription, hv] at hok
        obtain ⟨hs, _, hreq⟩ := stepPut_ok_req _ _ _ _ hok
        subst hreq
        constructor
        · simp [subscriptionToInternal, createSubscriptionProperties, normalizeEntityPath_idem]
        · simp [subscriptionToInternal, createSubscriptionProperties, normalizeEntityPath_idem]
  · intro fqns p h
    by_cases he : p.isEmpty <;> simp [normalizeEntityPath, he, h]
  · intro fqns p he ha
    exact ⟨by simp [normalizeEntityPath, he, ha], sbPath_isAbsolute fqns p⟩

/-- create_subscription arguments declaring a forward target. -/
def fwdSubArgs : CreateSubscriptionArgs := { forward_to := some "dest" }

/-- The request create_subscription sends for fwdSubArgs on sampleClient. -/
def sampleCreateSubFwdReq : SubscriptionPutRequest :=
  { topic_name := "t", name := "s"
    body := subscriptionToInternal sampleClient.fully_qualified_namespace
      (createSubscriptionProperties sampleClient "s" fwdSubArgs)
    matchCondition := .unconditionally
    headers := [(SUPPLEMENTARY_AUTHORIZATION_HEADER, "Bearer token-value")] }

/-- Witness for C6 at concrete inputs. -/
theorem forward_targets_normalized_before_serialization_witness :
    (sampleCreateFwdReq.body.forward_to
        = normalizeEntityPath sampleClient.fully_qualified_namespace fwdArgs.forward_to
      ∧ sampleCreateFwdReq.body.forward_dead_lettered_messages_to
        = normalizeEntityPath sampleClient.fully_qualified_namespace
            fwdArgs.forward_dead_lettered_messages_to)
  ∧ (sampleCreateSubFwdReq.body.forward_to
        = normalizeEntityPath sampleClient.fully_qualified_namespace fwdSubArgs.forward_to
      ∧ sampleCreateSubFwdReq.body.forward_dead_lettered_messages_to
        = normalizeEntityPath sampleClient.fully_qualified_namespace
            fwdSubArgs.forward_dead_lettered_messages_to)
  ∧ normalizeEntityPath "myns.servicebus.windows.net" (some "sb://other/dest")
      = some "sb://other/dest"
  ∧ (normalizeEntityPath "myns.servicebus.windows.net" (some "target")
        = some ("sb://" ++ "myns.servicebus.windows.net" ++ "/" ++ "target")
      ∧ isAbsoluteResourcePath ("sb://" ++ "myns.servicebus.windows.net" ++ "/" ++ "target") = true) :=
  ⟨forward_targets_normalized_before_serialization.1 sampleClient "q" fwdArgs
      sampleCreateFwdReq rfl,
   forward_targets_normalized_before_serialization.2.1 sampleClient "t" "s" fwdSubArgs
      sampleCreateSubFwdReq rfl,
   forward_targets_normalized_before_serialization.2.2.1 "myns.servicebus.windows.net"
      "sb://other/dest" rfl,
   forward_targets_normalized_before_serialization.2.2.2 "myns.servicebus.windows.net"
      "target" rfl rfl⟩

/-- C7 counterexample: the empty string violates the naming rules, yet
create_queue issues its PUT request for it — no Validation-class error is
raised locally and the transport records an invocation, contradicting the
claim that every public operation taking an entity name validates it
before any network request. -/
theorem create_queue_skips_name_validation :
    validEntityName "" = false
  ∧ (createQueue sampleClient "" {}).1 = [Event.putRequest ""] :=
  ⟨rfl, rfl⟩

/-- C7 amended: every public operation that takes the name of an existing
entity validates its name arguments locally and raises a Validation-class
error with no network event when one is invalid or empty — delete_queue and
delete_topic for their entity name; the element fetchers behind the get
operations for their entity, topic, subscription and rule names;
delete_subscription, delete_rule, list_subscriptions and list_rules for the
names they receive; and create_subscription, update_subscription,
create_rule and update_rule for the owning topic and subscription names.
create_queue, by contrast, performs no local validation of the new queue
name — for every name, the PUT is issued regardless. -/
theorem entity_name_validation_amended :
    (∀ s, validEntityName s = false →
        deleteQueue s = ([], .error (.validationError s))
      ∧ deleteTopic s = ([], .error (.validationError s))
      ∧ getEntityElement s = ([], .error (.validationError s))
      ∧ listSubscriptions s = ([], .error (.validationError s))
      ∧ (∀ sn : String, getSubscriptionElement s sn = ([], .error (.validationError s)))
      ∧ (∀ sn rn : String, getRuleElement s sn rn = ([], .error (.validationError s)))
      ∧ (∀ sn : String, deleteSubscription s sn = ([], .error (.validationError s)))
      ∧ (∀ sn rn : String, deleteRule s sn rn = ([], .error (.validationError s)))
      ∧ (∀ sn : String, listRules s sn = ([], .error (.validationError s)))
      ∧ (∀ (c : AdminClient) (sn : String) (a : CreateSubscriptionArgs),
            createSubscription c s sn a = ([], .error (.validationError s)))
      ∧ (∀ (c : AdminClient) (sub : SubscriptionProperties) (ov : SubscriptionOverrides),
            updateSubscription c s sub ov = ([], .error (.validationError s)))
      ∧ (∀ (sn rn : String) (f : Option RuleFilterObj) (act : Option SqlRuleAction),
            createRule s sn rn f act = ([], .error (.validationError s)))
      ∧ (∀ (sn : String) (r : RuleProperties) (ov : RuleOverrides),
            updateRule s sn r ov = ([], .error (.validationError s))))
  ∧ (∀ s tn, validEntityName s = false → validEntityName tn = true →
        getSubscriptionElement tn s = ([], .error (.validationError s))
      ∧ (∀ rn : String, getRuleElement tn s rn = ([], .error (.validationError s)))
      ∧ deleteSubscription tn s = ([], .error (.validationError s))
      ∧ (∀ rn : String, deleteRule tn s rn = ([], .error (.validationError s)))
      ∧ listRules tn s = ([], .error (.validationError s))
      ∧ (∀ (rn : String) (f : Option RuleFilterObj) (act : Option SqlRuleAction),
            createRule tn s rn f act = ([], .error (.validationError s)))
      ∧ (∀ (r : RuleProperties) (ov : RuleOverrides),
            updateRule tn s r ov = ([], .error (.validationError s))))
  ∧ (∀ s tn sn, validEntityName s = false → validEntityName tn = true →
        validEntityName sn = true →
        getRuleElement tn sn s = ([], .error (.validationError s))
      ∧ deleteRule tn sn s = ([], .error (.validationError s)))
  ∧ (∀ (c : AdminClient) (qn : String), (createQueue c qn {}).1 = [Event.putRequest qn]) := by
  refine ⟨?_, ?_, ?_, ?_⟩
  · intro s hs
    have hv : validateEntityName s = .error (.validationError s) := by
      simp [validateEntityName, hs]
    refine ⟨?_, ?_, ?_, ?_, ?_, ?_, ?_, ?_, ?_, ?_, ?_, ?_, ?_⟩
    · simp [deleteQueue, hv]
    · simp [deleteTopic, hv]
    · simp [getEntityElement, hv]
    · simp [listSubscriptions, hv]
    · intro sn
      simp [getSubscriptionElement, hv]
    · intro sn rn
      simp [getRuleElement, hv]
    · intro sn
      simp [deleteSubscription, hv]
    · intro sn rn
      simp [deleteRule, hv]
    · intro sn
      simp [listRules, hv]
    · intro c sn a
      simp [createSubscription, hv]
    · intro c sub ov
      simp [updateSubscription, hv]
    · intro sn rn f act
      simp [createRule, hv]
    · intro sn r ov
      simp [updateRule, hv]
  · intro s tn hs ht
    have hv : validateEntityName s = .error (.validationError s) := by
      simp [validateEntityName, hs]
    have hvt : validateEntityName tn = .ok () := by
      simp [validateEntityName, ht]
    refine ⟨?_, ?_, ?_, ?_, ?_, ?_, ?_⟩
    · simp [getSubscriptionElement, hvt, hv]
    · intro rn
      simp [getRuleElement, hvt, hv]
    · simp [deleteSubscription, hvt, hv]
    · intro rn
      simp [deleteRule, hvt, hv]
    · simp [listRules, hvt, hv]
    · intro rn f act
      simp [createRule, hvt, hv]
    · intro r ov
      simp [updateRule, hvt, hv]
  · intro s tn sn hs ht hsn
    have hv : validateEntityName s = .error (.validationError s) := by
      simp [validateEntityName, hs]
    have hvt : validateEntityName tn = .ok () := by
      simp [validateEntityName, ht]
    have hvs : validateEntityName sn = .ok () := by
      simp [validateEntityName, hsn]
    exact ⟨by simp [getRuleElement, hvt, hvs, hv], by simp [deleteRule, hvt, hvs, hv]⟩
  · intro c qn
    rfl

/-- Witness for the amended C7 at concrete inputs, exercising an invalid
name in the first, second and third name positions. -/
theorem entity_name_validation_amended_witness :
    deleteQueue "bad name!" = ([], .error (.validationError "bad name!"))
  ∧ getEntityElement "bad name!" = ([], .error (.validationError "bad name!"))
  ∧ createSubscription sampleClient "bad name!" "s2" {}
      = ([], .error (.validationError "bad name!"))
  ∧ updateRule "bad name!" "s" sampleRule {} = ([], .error (.validationError "bad name!"))
  ∧ deleteSubscription "t" "bad name!" = ([], .error (.validationError "bad name!"))
  ∧ updateRule "t" "bad name!" sampleRule {} = ([], .error (.validationError "bad name!"))
  ∧ deleteRule "t" "s" "bad name!" = ([], .error (.validationError "bad name!"))
  ∧ (createQueue sampleClient "" {}).1 = [Event.putRequest ""] :=
  ⟨(entity_name_validation_amended.1 "bad name!" (by decide)).1,
   (entity_name_validation_amended.1 "bad name!" (by decide)).2.2.1,
   (entity_name_validation_amended.1 "bad name!" (by decide)).2.2.2.2.2.2.2.2.2.1
      sampleClient "s2" {},
   (entity_name_validation_amended.1 "bad name!" (by decide)).2.2.2.2.2.2.2.2.2.2.2.2
      "s" sampleRule {},
   (entity_name_validation_amended.2.1 "bad name!" "t" (by decide) (by decide)).2.2.1,
   (entity_name_validation_amended.2.1 "bad name!" "t" (by decide) (by decide)).2.2.2.2.2.2
      sampleRule {},
   (entity_name_validation_amended.2.2.1 "bad name!" "t" "s" (by decide) (by decide)
      (by decide)).2,
   entity_name_validation_amended.2.2.2 sampleClient ""⟩

/-- C8: every update operation works on a deep copy of the caller-supplied
instance: after the copy-then-mutate step of update_queue, update_topic,
update_subscription or update_rule, the object at the caller's address is
unchanged, while the value handed on to serialization is the mutated
copy. -/
theorem update_ops_do_not_mutate_caller_instance :
    (∀ (h : ObjHeap QueueProperties) (a : Nat) (ov : QueueOverrides) (q : QueueProperties),
        heapLookup h a = some q →
          heapLookup (updateQueueCopyStep h a ov).1 a = some q
        ∧ (updateQueueCopyStep h a ov).2 = some (applyQueueOverrides q ov))
  ∧ (∀ (h : ObjHeap TopicProperties) (a : Nat) (ov : TopicOverrides) (t : TopicProperties),
        heapLookup h a = some t →
          heapLookup (updateTopicCopyStep h a ov).1 a = some t
        ∧ (updateTopicCopyStep h a ov).2 = some (applyTopicOverrides t ov))
  ∧ (∀ (h : ObjHeap SubscriptionProperties) (a : Nat) (ov : SubscriptionOverrides)
        (s : SubscriptionProperties),
        heapLookup h a = some s →
          heapLookup (updateSubscriptionCopyStep h a ov).1 a = some s
        ∧ (updateSubscriptionCopyStep h a ov).2 = some (applySubscriptionOverrides s ov))
  ∧ (∀ (h : ObjHeap RuleProperties) (a : Nat) (ov : RuleOverrides) (r : RuleProperties),
        heapLookup h a = some r →
          heapLookup (updateRuleCopyStep h a ov).1 a = some r
        ∧ (updateRuleCopyStep h a ov).2 = some (applyRuleOverrides r ov)) := by
  refine ⟨?_, ?_, ?_, ?_⟩ <;>
    exact fun h a ov v hv => deepcopyThenMutate_preserves h a _ v hv

/-- Witness for C8 at a concrete one-object heap per entity kind. -/
theorem update_ops_do_not_mutate_caller_instance_witness :
    (heapLookup (updateQueueCopyStep [(0, sampleQueue)] 0 {}).1 0 = some sampleQueue
      ∧ (updateQueueCopyStep [(0, sampleQueue)] 0 {}).2 = some (applyQueueOverrides sampleQueue {}))
  ∧ (heapLookup (updateTopicCopyStep [(0, sampleTopic)] 0 {}).1 0 = some sampleTopic
      ∧ (updateTopicCopyStep [(0, sampleTopic)] 0 {}).2 = some (applyTopicOverrides sampleTopic {}))
  ∧ (heapLookup (updateSubscriptionCopyStep [(0, sampleSubscription)] 0 {}).1 0 = some sampleSubscription
      ∧ (updateSubscriptionCopyStep [(0, sampleSubscription)] 0 {}).2
          = some (applySubscriptionOverrides sampleSubscription {}))
  ∧ (heapLookup (updateRuleCopyStep [(0, sampleRule)] 0 {}).1 0 = some sampleRule
      ∧ (updateRuleCopyStep [(0, sampleRule)] 0 {}).2 = some (applyRuleOverrides sampleRule {})) :=
  ⟨update_ops_do_not_mutate_caller_instance.1 [(0, sampleQueue)] 0 {} sampleQueue rfl,
   update_ops_do_not_mutate_caller_instance.2.1 [(0, sampleTopic)] 0 {} sampleTopic rfl,
   update_ops_do_not_mutate_caller_instance.2.2.1 [(0, sampleSubscription)] 0 {}
      sampleSubscription rfl,
   update_ops_do_not_mutate_caller_instance.2.2.2 [(0, sampleRule)] 0 {} sampleRule rfl⟩

/-- C9 counterexample: two distinct create_rule calls that omit the filter
argument both send the very same filter object — the one allocated once
when the def statement executed (objId 0) — so the default value is
shared between distinct calls, not constructed fresh per call site. -/
theorem create_rule_default_filter_shared :
    ((createRule "t" "s" "r1" none none).2.map (fun req => req.body.filter))
      = .ok (some createRule_default_filter)
  ∧ ((createRule "t" "s" "r2" none none).2.map (fun req => req.body.filter))
      = .ok (some createRule_default_filter) :=
  ⟨rfl, rfl⟩

/-- C9 amended: a create_rule call without an explicit filter argument
creates the rule with the match-everything filter, but the default value is
one TrueRuleFilter instance evaluated when the function definition executed
and shared by every defaulted call; an explicit filter argument is used
as passed. -/
theorem create_rule_default_filter_amended :
    createRule_default_filter.kind = .trueFilter
  ∧ (∀ (tn sn rn : String) (action : Option SqlRuleAction) (req : RulePutRequest),
        (createRule tn sn rn none action).2 = .ok req →
          req.body.filter = some createRule_default_filter)
  ∧ (∀ (tn sn rn : String) (f : RuleFilterObj) (action : Option SqlRuleAction)
        (req : RulePutRequest),
        (createRule tn sn rn (some f) action).2 = .ok req → req.body.filter = some f) := by
  refine ⟨rfl, ?_, ?_⟩
  · intro tn sn rn action req h
    cases hv : validateEntityName tn with
    | error e =>
        simp only [createRule, hv] at h
        exact Except.noConfusion h
    | ok u =>
        cases hv2 : validateEntityName sn with
        | error e =>
            simp only [createRule, hv, hv2] at h
            exact Except.noConfusion h
        | ok u2 =>
            simp only [createRule, hv, hv2, Except.ok.injEq] at h
            subst h
            rfl
  · intro tn sn rn f action req h
    cases hv : validateEntityName tn with
    | error e =>
        simp only [createRule, hv] at h
        exact Except.noConfusion h
    | ok u =>
        cases hv2 : validateEntityName sn with
        | error e =>
            simp only [createRule, hv, hv2] at h
            exact Except.noConfusion h
        | ok u2 =>
            simp only [createRule, hv, hv2, Except.ok.injEq] at h
            subst h
            rfl

/-- An explicitly passed SQL filter object, distinct from the default. -/
def sampleSqlFilter : RuleFilterObj := { objId := 7, kind := .sqlFilter }

/-- The request create_rule sends when the filter argument is omitted. -/
def sampleRuleCreateDefaultReq : RulePutRequest :=
  { topic_name := "t", subscription_name := "s", name := "r"
    body := ruleToInternal
      { name := "r", filter := some createRule_default_filter, action := none, created_at_utc := none }
    matchCondition := .unconditionally }

/-- The request create_rule sends when a filter is passed explicitly. -/
def sampleRuleCreateExplicitReq : RulePutRequest :=
  { topic_name := "t", subscription_name := "s", name := "r"
    body := ruleToInternal
      { name := "r", filter := some sampleSqlFilter, action := none, created_at_utc := none }
    matchCondition := .unconditionally }

/-- Witness for the amended C9 at concrete inputs. -/
theorem create_rule_default_filter_amended_witness :
    sampleRuleCreateDefaultReq.body.filter = some createRule_default_filter
  ∧ sampleRuleCreateExplicitReq.body.filter = some sampleSqlFilter :=
  ⟨create_rule_default_filter_amended.2.1 "t" "s" "r" none sampleRuleCreateDefaultReq rfl,
   create_rule_default_filter_amended.2.2 "t" "s" "r" sampleSqlFilter none
      sampleRuleCreateExplicitReq rfl⟩

/-- C10: a parsed connection string carrying neither a SAS token with
expiry nor a shared-access key name and value leaves the credential local
variable unassigned, so from_connection_string fails with Python's
unbound-local error instead of a typed Validation error. -/
theorem from_connection_string_unbound_local :
    ∀ (endpoint : String) (sakName sak tok : Option String) (exp : Option Nat),
      (pyTruthyStr tok && pyTruthyNat exp) = false →
      (pyTruthyStr sakName && pyTruthyStr sak) = false →
      from_connection_string endpoint sakName sak tok exp
        = .error (.unboundLocalError "credential") := by
  intro endpoint sakName sak tok exp h1 h2
  simp [from_connection_string, h1, h2]

/-- Witness for C10 at a concrete parse result with no credential
material. -/
theorem from_connection_string_unbound_local_witness :
    from_connection_string "sb://myns.servicebus.windows.net/" none none none none
      = .error (.unboundLocalError "credential") :=
  from_connection_string_unbound_local "sb://myns.servicebus.windows.net/" none none none none
    rfl rfl

end ServiceBusAdmin
